import Mathlib

/-!
Verification of the request-forwarding API gateway
(`app/routes/auth_routes.py`, `app/routes/patient_routes.py`,
`app/routes/recommendation_routes.py`, `app/main.py`, `app/core/config.py`).

The gateway is stateless per request: every route handler builds one
outbound HTTP call from the inbound request, sends it to a backend, and
translates the backend's answer (or the transport failure) into the
response for the original caller.  We embed that behaviour shallowly:

* a backend is a function from the outbound request to a transport result
  (either a transport-level error, modelling `httpx.RequestError`, or an
  HTTP response);
* each Python route handler becomes a Lean function returning the
  gateway-side outcome together with the list of outbound calls it issued
  (so that "the backend is never contacted" is the statement that this
  list is empty);
* an unhandled Python exception inside a handler (which FastAPI turns
  into a generic HTTP 500) is modelled by the `internalError` outcome;
* `response.json()` is modelled by carrying, next to the raw text of a
  backend response, the optional parsed JSON value (`none` when the body
  is not valid JSON);
* FastAPI's request-body validation for handlers that declare a Pydantic
  model parameter is modelled by `..._route` wrappers that validate the
  raw JSON body before invoking the handler.  The per-field loc/msg/type
  detail of the framework's 422 response body is not modelled; no theorem
  below depends on its shape;
* FastAPI's response serialization is modelled on the success path: the
  value a handler returns is validated and filtered against the route's
  declared `response_model` (`modelFilter` with a per-model serializer),
  and a non-conforming value becomes the generic 500 of a
  `ResponseValidationError`.  Error paths (`HTTPException`, unhandled
  exceptions) bypass response serialization, as in FastAPI.
-/

namespace OncoGateway

/-- JSON values (the payloads travelling between caller, gateway and
backends). -/
inductive Json where
  | null : Json
  | bool : Bool → Json
  | num : Int → Json
  | str : String → Json
  | arr : List Json → Json
  | obj : List (String × Json) → Json
deriving Repr

/-- One outbound HTTP call as issued through `httpx`. -/
structure OutboundRequest where
  method : String
  url : String
  headers : List (String × String)
  jsonBody : Option Json
  params : List (String × Json)
deriving Repr

/-- A backend HTTP response: status code, raw text, and the result of
parsing the text as JSON (`none` when `response.json()` would raise). -/
structure HttpResponse where
  status : Nat
  text : String
  jsonBody : Option Json
deriving Repr

/-- What the transport layer yields for one outbound call: either an
`httpx.RequestError` (DNS failure, connection refused, timeout) with the
error's message, or a response from the backend. -/
inductive TransportResult where
  | err : String → TransportResult
  | ok : HttpResponse → TransportResult
deriving Repr

/-- A backend (together with the transport to it) decides the fate of
every outbound request. -/
def Backend : Type := OutboundRequest → TransportResult

/-- The inbound request as the handlers see it: its headers, its query
parameters, and the result of `await request.json()` (`none` when the
body is missing or not valid JSON, in which case `request.json()`
raises). -/
structure InboundRequest where
  headers : List (String × String)
  queryParams : List (String × Json)
  jsonBody : Option Json
deriving Repr

/-- Outcome of one gateway route invocation, as observed by the caller:
an `HTTPException` with status and string detail, a framework-produced
422 validation response, a normal return (the route's declared success
status together with the JSON value the handler returned), the empty 204
return of the delete routes, or an unhandled exception that FastAPI turns
into a generic 500. -/
inductive GatewayResult where
  | httpError : Nat → String → GatewayResult
  | validationError422 : String → GatewayResult
  | ok : Nat → Json → GatewayResult
  | noContent : GatewayResult
  | internalError : String → GatewayResult
deriving Repr

/-- Does the outcome carry HTTP status 401? -/
def GatewayResult.is401 : GatewayResult → Bool
  | GatewayResult.httpError s _ => s == 401
  | _ => false

/-- Python dictionary truthiness for JSON values (`{}`, `[]`, `""`, `0`,
`None` and `False` are falsy). -/
def pyTruthy : Json → Bool
  | Json.null => false
  | Json.bool b => b
  | Json.num n => n != 0
  | Json.str s => !s.isEmpty
  | Json.arr xs => !xs.isEmpty
  | Json.obj fs => !fs.isEmpty

/-- The Python expression `a or b` on an optional JSON value `a` and a
fallible computation `b` (`json_data or await request.json()`). -/
def pyOrJson (a : Option Json) (b : Option Json) : Option Json :=
  match a with
  | some j => if pyTruthy j then some j else b
  | none => b

/-- The Python expression `params or request.query_params` (an empty
dict is falsy). -/
def pyOrParams (a : Option (List (String × Json))) (b : List (String × Json)) :
    List (String × Json) :=
  match a with
  | some ps => if ps.isEmpty then b else ps
  | none => b

/-- Python dictionary assignment `d[k] = v`: replace the value of an
existing key, otherwise append the new binding. -/
def dictInsert (d : List (String × String)) (k v : String) : List (String × String) :=
  if d.any (fun p => p.fst == k) then d.map (fun p => if p.fst == k then (k, v) else p)
  else d ++ [(k, v)]

/-- Encode an optional string the way Pydantic's `.dict()` serialises an
`Optional[str]` field (`None` becomes JSON null). -/
def optStrJson : Option String → Json
  | some s => Json.str s
  | none => Json.null

/-- Encode an optional integer field (`None` becomes JSON null). -/
def optIntJson : Option Int → Json
  | some n => Json.num n
  | none => Json.null

/-- Shallow model of the `email-validator` check behind Pydantic's
`EmailStr`: only the aspect the claims depend on (some strings pass,
some fail) matters, so we test for the presence of an `@`. -/
def isValidEmail (s : String) : Bool := s.toList.contains '@'

/-- Look up a key of a JSON object (Python `dict` access; the JSON
objects fed to the model are assumed to have pairwise distinct keys, as
Python dictionaries do). -/
def jlookup (fs : List (String × Json)) (k : String) : Option Json :=
  fs.lookup k

/-- Pydantic access to an optional `str` field: absent, explicit null,
a string, or a type error. The boolean records whether the field was
explicitly present (Pydantic's `__fields_set__`). -/
def getOptStr (fs : List (String × Json)) (k : String) :
    Except String (Option String × Bool) :=
  match jlookup fs k with
  | none => Except.ok (none, false)
  | some Json.null => Except.ok (none, true)
  | some (Json.str s) => Except.ok (some s, true)
  | some _ => Except.error "pydantic ValidationError"

/-- Pydantic access to an optional `int` field. -/
def getOptInt (fs : List (String × Json)) (k : String) :
    Except String (Option Int × Bool) :=
  match jlookup fs k with
  | none => Except.ok (none, false)
  | some Json.null => Except.ok (none, true)
  | some (Json.num n) => Except.ok (some n, true)
  | some _ => Except.error "pydantic ValidationError"

/-- Pydantic access to an optional `EmailStr` field. -/
def getOptEmail (fs : List (String × Json)) (k : String) :
    Except String (Option String × Bool) :=
  match jlookup fs k with
  | none => Except.ok (none, false)
  | some Json.null => Except.ok (none, true)
  | some (Json.str s) =>
    if isValidEmail s then Except.ok (some s, true)
    else Except.error "pydantic ValidationError"
  | some _ => Except.error "pydantic ValidationError"

/-- Pydantic access to a required `str` field. -/
def getReqStr (fs : List (String × Json)) (k : String) : Except String String :=
  match jlookup fs k with
  | some (Json.str s) => Except.ok s
  | _ => Except.error "pydantic ValidationError"

/-- Pydantic access to a required `int` field. -/
def getReqInt (fs : List (String × Json)) (k : String) : Except String Int :=
  match jlookup fs k with
  | some (Json.num n) => Except.ok n
  | _ => Except.error "pydantic ValidationError"

/-- Pydantic access to a required `EmailStr` field. -/
def getReqEmail (fs : List (String × Json)) (k : String) : Except String String :=
  match jlookup fs k with
  | some (Json.str s) =>
    if isValidEmail s then Except.ok s else Except.error "pydantic ValidationError"
  | _ => Except.error "pydantic ValidationError"

/-- Model of `os.getenv(key, default)` over an environment. -/
def getenv (env : List (String × String)) (key default : String) : String :=
  (env.lookup key).getD default

/-- Model of `AUTH_SERVICE_URL` from `auth_routes.py` line 10. -/
def AUTH_SERVICE_URL (env : List (String × String)) : String :=
  getenv env "AUTH_URL" "https://oncoapp-239j.onrender.com"

/-- Model of `PATIENT_SERVICE_URL` from `patient_routes.py` line 11. -/
def PATIENT_SERVICE_URL (env : List (String × String)) : String :=
  getenv env "PATIENT_URL" "https://patientoncoassist.onrender.com"

/-- Model of `RECOMMENDATION_SERVICE_URL` from `recommendation_routes.py` lines 11-14. -/
def RECOMMENDATION_SERVICE_URL (env : List (String × String)) : String :=
  getenv env "RECOMMENDATION_URL" "https://oncoai-4rec.onrender.com"

/-- An inbound route declaration: the decorator's HTTP verb and path. -/
structure RouteDecl where
  method : String
  path : String
deriving DecidableEq, Repr

/-! ## Response-model serialization

FastAPI validates a handler's return value against the route's declared
`response_model` and serialises it (model fields only, declaration
order, defaults inserted, extra keys dropped); a non-conforming value
raises `ResponseValidationError`, which surfaces as a generic 500.  A
serializer below maps the handler's JSON value to `some` filtered output
or `none` for a validation failure.  As with request validation, the
types are checked exactly (no lax coercion of e.g. numeric strings). -/

/-- Read a JSON value as a string (response-model field typed `str`). -/
def asStr : Json → Option String
  | Json.str s => some s
  | _ => none

/-- Read a JSON value as an integer (field typed `int`). -/
def asInt : Json → Option Int
  | Json.num n => some n
  | _ => none

/-- Read a JSON value as a boolean (field typed `bool`). -/
def asBool : Json → Option Bool
  | Json.bool b => some b
  | _ => none

/-- A required `str` field of a response model. -/
def reqStrField (fs : List (String × Json)) (k : String) : Option String :=
  (jlookup fs k).bind asStr

/-- A required `int` field of a response model. -/
def reqIntField (fs : List (String × Json)) (k : String) : Option Int :=
  (jlookup fs k).bind asInt

/-- A required `bool` field of a response model. -/
def reqBoolField (fs : List (String × Json)) (k : String) : Option Bool :=
  (jlookup fs k).bind asBool

/-- A required `EmailStr` field of a response model. -/
def reqEmailField (fs : List (String × Json)) (k : String) : Option String :=
  ((jlookup fs k).bind asStr).bind
    (fun s => if isValidEmail s then some s else none)

/-- A `str` field with a default (e.g. `token_type: str = "bearer"`):
absent means the default, null or a non-string fails. -/
def defStrField (fs : List (String × Json)) (k d : String) : Option String :=
  match jlookup fs k with
  | none => some d
  | some (Json.str s) => some s
  | some _ => none

/-- An `Optional[str] = None` field of a response model: absent or null
serialises as null, a string as itself, anything else fails. -/
def optStrField (fs : List (String × Json)) (k : String) : Option (Option String) :=
  match jlookup fs k with
  | none => some none
  | some Json.null => some none
  | some (Json.str s) => some (some s)
  | some _ => none

/-- A `list[M]` response model: every element must conform to `M`. -/
def listSerialize (f : Json → Option Json) : Json → Option Json
  | Json.arr xs => (xs.mapM f).map Json.arr
  | _ => none

/-- The `response_model=dict` of `POST /register`: any JSON object
passes unfiltered, anything else fails. -/
def respDict : Json → Option Json
  | Json.obj fs => some (Json.obj fs)
  | _ => none

/-- FastAPI's response serialization step on the success path: the
handler's JSON value is validated and filtered by the route's response
model, or the route fails with the generic 500 of a
`ResponseValidationError`. -/
def modelFilter (successStatus : Nat) (respModel : Json → Option Json)
    (j : Json) : GatewayResult :=
  match respModel j with
  | some out => GatewayResult.ok successStatus out
  | none => GatewayResult.internalError "ResponseValidationError"


namespace auth_routes

/-- Model of `RegisterIn` (`auth_routes.py` lines 17-24): seven required string
fields. -/
structure RegisterIn where
  email : String
  password : String
  nombres : String
  apellidos : String
  tipo_doc : String
  doc : String
  especialidades : String
deriving DecidableEq, Repr

/-- Pydantic validation of a JSON body against `RegisterIn`
(`RegisterIn(**body)`). -/
def RegisterIn.validate (j : Json) : Except String RegisterIn :=
  match j with
  | Json.obj fs =>
    match getReqStr fs "email", getReqStr fs "password", getReqStr fs "nombres",
          getReqStr fs "apellidos", getReqStr fs "tipo_doc", getReqStr fs "doc",
          getReqStr fs "especialidades" with
    | Except.ok e, Except.ok p, Except.ok n, Except.ok a, Except.ok t,
      Except.ok d, Except.ok es => Except.ok ⟨e, p, n, a, t, d, es⟩
    | _, _, _, _, _, _, _ => Except.error "pydantic ValidationError"
  | _ => Except.error "pydantic ValidationError"

/-- Model of `validated.dict()` for `RegisterIn`. -/
def RegisterIn.toDict (v : RegisterIn) : Json :=
  Json.obj [("email", Json.str v.email), ("password", Json.str v.password),
    ("nombres", Json.str v.nombres), ("apellidos", Json.str v.apellidos),
    ("tipo_doc", Json.str v.tipo_doc), ("doc", Json.str v.doc),
    ("especialidades", Json.str v.especialidades)]

/-- Model of `LoginIn` (`auth_routes.py` lines 26-28). -/
structure LoginIn where
  email : String
  password : String
deriving DecidableEq, Repr

/-- Pydantic validation of a JSON body against `LoginIn`. -/
def LoginIn.validate (j : Json) : Except String LoginIn :=
  match j with
  | Json.obj fs =>
    match getReqStr fs "email", getReqStr fs "password" with
    | Except.ok e, Except.ok p => Except.ok ⟨e, p⟩
    | _, _ => Except.error "pydantic ValidationError"
  | _ => Except.error "pydantic ValidationError"

/-- Model of `validated.dict()` for `LoginIn`. -/
def LoginIn.toDict (v : LoginIn) : Json :=
  Json.obj [("email", Json.str v.email), ("password", Json.str v.password)]

/-- Model of `UserMedicoUpdateIn` (`auth_routes.py` lines 50-58): eight optional
fields. -/
structure UserMedicoUpdateIn where
  email : Option String
  rol_id : Option Int
  password : Option String
  nombres : Option String
  apellidos : Option String
  tipo_doc : Option String
  doc : Option String
  especialidades : Option String
deriving DecidableEq, Repr

/-- Pydantic validation of a JSON body against `UserMedicoUpdateIn`. -/
def UserMedicoUpdateIn.validate (j : Json) : Except String UserMedicoUpdateIn :=
  match j with
  | Json.obj fs =>
    match getOptStr fs "email", getOptInt fs "rol_id", getOptStr fs "password",
          getOptStr fs "nombres", getOptStr fs "apellidos", getOptStr fs "tipo_doc",
          getOptStr fs "doc", getOptStr fs "especialidades" with
    | Except.ok e, Except.ok r, Except.ok p, Except.ok n, Except.ok a,
      Except.ok t, Except.ok d, Except.ok es =>
      Except.ok ⟨e.1, r.1, p.1, n.1, a.1, t.1, d.1, es.1⟩
    | _, _, _, _, _, _, _, _ => Except.error "pydantic ValidationError"
  | _ => Except.error "pydantic ValidationError"

/-- Model of `validated.dict()` for `UserMedicoUpdateIn` (without `exclude_unset`,
so unset fields are serialised as JSON null). -/
def UserMedicoUpdateIn.toDict (v : UserMedicoUpdateIn) : Json :=
  Json.obj [("email", optStrJson v.email), ("rol_id", optIntJson v.rol_id),
    ("password", optStrJson v.password), ("nombres", optStrJson v.nombres),
    ("apellidos", optStrJson v.apellidos), ("tipo_doc", optStrJson v.tipo_doc),
    ("doc", optStrJson v.doc), ("especialidades", optStrJson v.especialidades)]

/-- Serializer of `TokenOut` (`auth_routes.py` lines 30-32):
`access_token: str` required, `token_type: str = "bearer"`. -/
def TokenOut.serialize : Json → Option Json
  | Json.obj fs => do
    let at_ ← reqStrField fs "access_token"
    let tt ← defStrField fs "token_type" "bearer"
    some (Json.obj [("access_token", Json.str at_), ("token_type", Json.str tt)])
  | _ => none

/-- Serializer of `UserOut` (`auth_routes.py` lines 34-38). -/
def UserOut.serialize : Json → Option Json
  | Json.obj fs => do
    let i ← reqStrField fs "id"
    let e ← reqStrField fs "email"
    let r ← reqIntField fs "rol_id"
    let ca ← reqStrField fs "created_at"
    some (Json.obj [("id", Json.str i), ("email", Json.str e),
      ("rol_id", Json.num r), ("created_at", Json.str ca)])
  | _ => none

/-- Serializer of `MedicoOut` (`auth_routes.py` lines 40-48). -/
def MedicoOut.serialize : Json → Option Json
  | Json.obj fs => do
    let i ← reqIntField fs "id"
    let u ← reqStrField fs "user_id"
    let n ← reqStrField fs "nombres"
    let a ← reqStrField fs "apellidos"
    let t ← reqStrField fs "tipo_doc"
    let d ← reqStrField fs "doc"
    let es ← reqStrField fs "especialidades"
    let ca ← reqStrField fs "created_at"
    some (Json.obj [("id", Json.num i), ("user_id", Json.str u),
      ("nombres", Json.str n), ("apellidos", Json.str a),
      ("tipo_doc", Json.str t), ("doc", Json.str d),
      ("especialidades", Json.str es), ("created_at", Json.str ca)])
  | _ => none

/-- Serializer of `UserMedicoUpdateOut` (`auth_routes.py` lines 60-62):
two nested required models. -/
def UserMedicoUpdateOut.serialize : Json → Option Json
  | Json.obj fs => do
    let u ← (jlookup fs "usuario").bind UserOut.serialize
    let m ← (jlookup fs "medico").bind MedicoOut.serialize
    some (Json.obj [("usuario", u), ("medico", m)])
  | _ => none

/-- Serializer of `SearchResult` (`auth_routes.py` lines 64-67). -/
def SearchResult.serialize : Json → Option Json
  | Json.obj fs => do
    let u ← (jlookup fs "usuario").bind UserOut.serialize
    let m ← (jlookup fs "medico").bind MedicoOut.serialize
    let e ← reqStrField fs "encontrado_por"
    some (Json.obj [("usuario", u), ("medico", m), ("encontrado_por", Json.str e)])
  | _ => none

/-- Intermediate outcome of `forward_request`: an `HTTPException` raised
inside it, a backend response handed back to the route, or an unhandled
exception. -/
inductive ForwardResult where
  | httpError : Nat → String → ForwardResult
  | response : HttpResponse → ForwardResult
  | internalError : String → ForwardResult
deriving Repr

/-- The `async with httpx.AsyncClient()` block of `forward_request`
(`auth_routes.py` lines 96-109) for one concrete call: an
`httpx.RequestError` is translated to HTTP 502 wrapping the error text. -/
def send (backend : Backend) (call : OutboundRequest) :
    ForwardResult × List OutboundRequest :=
  let result : ForwardResult :=
    match backend call with
    | TransportResult.err e =>
      ForwardResult.httpError 502
        ("Error al contactar el servicio de autenticación: " ++ e)
    | TransportResult.ok r => ForwardResult.response r
  (result, [call])

/-- Verb dispatch of `forward_request` (`auth_routes.py` lines 96-109):
GET, POST and PUT are issued; any other verb raises HTTP 405 without
contacting the backend. For POST and PUT the body is
`json_data or await request.json()`. -/
def forward_send (authUrl : String) (backend : Backend) (method endpoint : String)
    (request : InboundRequest) (headers : List (String × String))
    (json_data : Option Json) (params : Option (List (String × Json))) :
    ForwardResult × List OutboundRequest :=
  if method = "GET" then
    send backend ⟨"GET", authUrl ++ endpoint, headers, none,
      pyOrParams params request.queryParams⟩
  else if method = "POST" then
    match pyOrJson json_data request.jsonBody with
    | none => (ForwardResult.internalError "json decode error", [])
    | some data => send backend ⟨"POST", authUrl ++ endpoint, headers, some data, []⟩
  else if method = "PUT" then
    match pyOrJson json_data request.jsonBody with
    | none => (ForwardResult.internalError "json decode error", [])
    | some data => send backend ⟨"PUT", authUrl ++ endpoint, headers, some data, []⟩
  else
    (ForwardResult.httpError 405 "Método no permitido", [])

/-- Model of `forward_request` (`auth_routes.py` lines 81-109).  When
`requires_auth` is set and no token is present it raises HTTP 401 before
the client block; when a token is present it overwrites the inbound
`authorization` header with `Bearer <token>`. -/
def forward_request (authUrl : String) (backend : Backend) (method endpoint : String)
    (request : InboundRequest) (requires_auth : Bool) (json_data : Option Json)
    (params : Option (List (String × Json))) (token : Option String) :
    ForwardResult × List OutboundRequest :=
  match requires_auth, token with
  | true, none =>
    (ForwardResult.httpError 401 "Token de autorización faltante", [])
  | true, some t =>
    forward_send authUrl backend method endpoint request
      (dictInsert request.headers "authorization" ("Bearer " ++ t)) json_data params
  | false, _ =>
    forward_send authUrl backend method endpoint request request.headers json_data params

/-- Model of `handle_response` (`auth_routes.py` lines 111-117): a backend status
of 400 or above raises an `HTTPException` with that status and the raw
response text as detail; otherwise the parsed JSON body is returned, or
the fallback object `{"message": <raw text>}` when the body is not valid
JSON. -/
def handle_response (r : HttpResponse) : Except (Nat × String) Json :=
  if 400 ≤ r.status then Except.error (r.status, r.text)
  else
    match r.jsonBody with
    | some j => Except.ok j
    | none => Except.ok (Json.obj [("message", Json.str r.text)])

/-- The `return handle_response(response)` tail shared by every auth
route, combined with the route decorator's success status and with
FastAPI's serialization of the returned value against the route's
declared response model. -/
def relay (successStatus : Nat) (respModel : Json → Option Json) :
    ForwardResult → GatewayResult
  | ForwardResult.httpError s d => GatewayResult.httpError s d
  | ForwardResult.internalError m => GatewayResult.internalError m
  | ForwardResult.response r =>
    match handle_response r with
    | Except.error (s, d) => GatewayResult.httpError s d
    | Except.ok j => modelFilter successStatus respModel j

/-- Model of `POST /register` (`auth_routes.py` lines 132-137).  The body is
parsed and validated inside the handler; a Pydantic validation failure
there is an unhandled exception (HTTP 500), not a 422. -/
def register (authUrl : String) (backend : Backend) (request : InboundRequest) :
    GatewayResult × List OutboundRequest :=
  match request.jsonBody with
  | none => (GatewayResult.internalError "json decode error", [])
  | some body =>
    match RegisterIn.validate body with
    | Except.error e => (GatewayResult.internalError e, [])
    | Except.ok v =>
      let fc := forward_request authUrl backend "POST" "/register" request false
        (some v.toDict) none none
      (relay 201 respDict fc.1, fc.2)

/-- Model of `POST /login` (`auth_routes.py` lines 139-144). -/
def login (authUrl : String) (backend : Backend) (request : InboundRequest) :
    GatewayResult × List OutboundRequest :=
  match request.jsonBody with
  | none => (GatewayResult.internalError "json decode error", [])
  | some body =>
    match LoginIn.validate body with
    | Except.error e => (GatewayResult.internalError e, [])
    | Except.ok v =>
      let fc := forward_request authUrl backend "POST" "/login" request false
        (some v.toDict) none none
      (relay 200 TokenOut.serialize fc.1, fc.2)

/-- Model of `GET /me` (`auth_routes.py` lines 150-153). -/
def get_me (authUrl : String) (backend : Backend) (request : InboundRequest)
    (token : Option String) : GatewayResult × List OutboundRequest :=
  let fc := forward_request authUrl backend "GET" "/me" request true none none token
  (relay 200 UserOut.serialize fc.1, fc.2)

/-- Model of `GET /admin/users` (`auth_routes.py` lines 159-162). -/
def list_users (authUrl : String) (backend : Backend) (request : InboundRequest)
    (token : Option String) : GatewayResult × List OutboundRequest :=
  let fc := forward_request authUrl backend "GET" "/admin/users" request true none none token
  (relay 200 (listSerialize UserOut.serialize) fc.1, fc.2)

/-- Model of `GET /admin/medicos` (`auth_routes.py` lines 164-167). -/
def list_medicos (authUrl : String) (backend : Backend) (request : InboundRequest)
    (token : Option String) : GatewayResult × List OutboundRequest :=
  let fc := forward_request authUrl backend "GET" "/admin/medicos" request true none none token
  (relay 200 (listSerialize MedicoOut.serialize) fc.1, fc.2)

/-- Model of `GET /admin/user-medico/{user_id}` (`auth_routes.py` lines 169-172). -/
def get_user_medico (authUrl : String) (backend : Backend) (user_id : String)
    (request : InboundRequest) (token : Option String) :
    GatewayResult × List OutboundRequest :=
  let fc := forward_request authUrl backend "GET" ("/admin/user-medico/" ++ user_id)
    request true none none token
  (relay 200 UserMedicoUpdateOut.serialize fc.1, fc.2)

/-- Model of `PUT /admin/user-medico/{user_id}` (`auth_routes.py` lines 174-179).
The body is parsed and validated before `forward_request` runs, so a
malformed body fails (500) even when the token is missing. -/
def update_user_medico (authUrl : String) (backend : Backend) (user_id : String)
    (request : InboundRequest) (token : Option String) :
    GatewayResult × List OutboundRequest :=
  match request.jsonBody with
  | none => (GatewayResult.internalError "json decode error", [])
  | some body =>
    match UserMedicoUpdateIn.validate body with
    | Except.error e => (GatewayResult.internalError e, [])
    | Except.ok v =>
      let fc := forward_request authUrl backend "PUT" ("/admin/user-medico/" ++ user_id)
        request true (some v.toDict) none token
      (relay 200 UserMedicoUpdateOut.serialize fc.1, fc.2)

/-- Model of `GET /search` (`auth_routes.py` lines 185-195): the three optional
query parameters are forwarded as an explicit params dict. -/
def search_user_medico (authUrl : String) (backend : Backend)
    (request : InboundRequest) (email tipo_doc doc : Option String)
    (token : Option String) : GatewayResult × List OutboundRequest :=
  let params := [("email", optStrJson email), ("tipo_doc", optStrJson tipo_doc),
    ("doc", optStrJson doc)]
  let fc := forward_request authUrl backend "GET" "/search" request true none
    (some params) token
  (relay 200 SearchResult.serialize fc.1, fc.2)

/-- Model of `GET /search/flexible` (`auth_routes.py` lines 197-205). -/
def search_flexible (authUrl : String) (backend : Backend)
    (request : InboundRequest) (q : String) (token : Option String) :
    GatewayResult × List OutboundRequest :=
  let fc := forward_request authUrl backend "GET" "/search/flexible" request true none
    (some [("q", Json.str q)]) token
  (relay 200 (listSerialize SearchResult.serialize) fc.1, fc.2)

end auth_routes


namespace patient_routes

/-- Model of `PatientCreate` (`patient_routes.py` lines 17-27). -/
structure PatientCreate where
  document_id : String
  name : String
  age : Int
  gender : String
  race : Option String
  region : Option String
  urban_or_rural : Option String
  email : String
  phone : Option String
  address : Option String
deriving DecidableEq, Repr

/-- FastAPI body validation against `PatientCreate`. -/
def PatientCreate.validate (j : Json) : Except String PatientCreate :=
  match j with
  | Json.obj fs =>
    match getReqStr fs "document_id", getReqStr fs "name", getReqInt fs "age",
          getReqStr fs "gender", getOptStr fs "race", getOptStr fs "region",
          getOptStr fs "urban_or_rural", getReqEmail fs "email",
          getOptStr fs "phone", getOptStr fs "address" with
    | Except.ok di, Except.ok n, Except.ok a, Except.ok g, Except.ok ra,
      Except.ok re, Except.ok u, Except.ok e, Except.ok ph, Except.ok ad =>
      Except.ok ⟨di, n, a, g, ra.1, re.1, u.1, e, ph.1, ad.1⟩
    | _, _, _, _, _, _, _, _, _, _ => Except.error "pydantic ValidationError"
  | _ => Except.error "pydantic ValidationError"

/-- Model of `patient.dict()` for `PatientCreate` (all fields, unset optionals as
JSON null). -/
def PatientCreate.toDict (v : PatientCreate) : Json :=
  Json.obj [("document_id", Json.str v.document_id), ("name", Json.str v.name),
    ("age", Json.num v.age), ("gender", Json.str v.gender),
    ("race", optStrJson v.race), ("region", optStrJson v.region),
    ("urban_or_rural", optStrJson v.urban_or_rural), ("email", Json.str v.email),
    ("phone", optStrJson v.phone), ("address", optStrJson v.address)]

/-- The field names of `PatientUpdate` in declaration order
(`patient_routes.py` lines 33-42). -/
def patientUpdateFieldNames : List String :=
  ["name", "age", "gender", "race", "region", "urban_or_rural", "email",
   "phone", "address"]

/-- Model of `PatientUpdate` (`patient_routes.py` lines 33-42): all fields
optional.  `fields_set` models Pydantic's `__fields_set__`, the set of
field names explicitly present in the parsed body. -/
structure PatientUpdate where
  name : Option String
  age : Option Int
  gender : Option String
  race : Option String
  region : Option String
  urban_or_rural : Option String
  email : Option String
  phone : Option String
  address : Option String
  fields_set : List String
deriving DecidableEq, Repr

/-- FastAPI body validation against `PatientUpdate`. -/
def PatientUpdate.validate (j : Json) : Except String PatientUpdate :=
  match j with
  | Json.obj fs =>
    match getOptStr fs "name", getOptInt fs "age", getOptStr fs "gender",
          getOptStr fs "race", getOptStr fs "region", getOptStr fs "urban_or_rural",
          getOptEmail fs "email", getOptStr fs "phone", getOptStr fs "address" with
    | Except.ok n, Except.ok a, Except.ok g, Except.ok ra, Except.ok re,
      Except.ok u, Except.ok e, Except.ok ph, Except.ok ad =>
      Except.ok ⟨n.1, a.1, g.1, ra.1, re.1, u.1, e.1, ph.1, ad.1,
        patientUpdateFieldNames.filter (fun k => (jlookup fs k).isSome)⟩
    | _, _, _, _, _, _, _, _, _ => Except.error "pydantic ValidationError"
  | _ => Except.error "pydantic ValidationError"

/-- Model of `patient_update.dict(exclude_unset=True)`: only the fields recorded
in `fields_set` are serialised, in declaration order. -/
def PatientUpdate.dictExcludeUnset (v : PatientUpdate) : List (String × Json) :=
  (if v.fields_set.contains "name" then [("name", optStrJson v.name)] else []) ++
  ((if v.fields_set.contains "age" then [("age", optIntJson v.age)] else []) ++
  ((if v.fields_set.contains "gender" then [("gender", optStrJson v.gender)] else []) ++
  ((if v.fields_set.contains "race" then [("race", optStrJson v.race)] else []) ++
  ((if v.fields_set.contains "region" then [("region", optStrJson v.region)] else []) ++
  ((if v.fields_set.contains "urban_or_rural" then
    [("urban_or_rural", optStrJson v.urban_or_rural)] else []) ++
  ((if v.fields_set.contains "email" then [("email", optStrJson v.email)] else []) ++
  ((if v.fields_set.contains "phone" then [("phone", optStrJson v.phone)] else []) ++
  (if v.fields_set.contains "address" then [("address", optStrJson v.address)] else []))))))))

/-- Model of `ClinicalHistoryCreate` (`patient_routes.py` lines 52-59). -/
structure ClinicalHistoryCreate where
  document_id : String
  stage_at_diagnosis : String
  tumor_aggressiveness : String
  treatment_access : String
  follow_up_adherence : String
deriving DecidableEq, Repr

/-- FastAPI body validation against `ClinicalHistoryCreate`. -/
def ClinicalHistoryCreate.validate (j : Json) : Except String ClinicalHistoryCreate :=
  match j with
  | Json.obj fs =>
    match getReqStr fs "document_id", getReqStr fs "stage_at_diagnosis",
          getReqStr fs "tumor_aggressiveness", getReqStr fs "treatment_access",
          getReqStr fs "follow_up_adherence" with
    | Except.ok di, Except.ok st, Except.ok tu, Except.ok tr, Except.ok fo =>
      Except.ok ⟨di, st, tu, tr, fo⟩
    | _, _, _, _, _ => Except.error "pydantic ValidationError"
  | _ => Except.error "pydantic ValidationError"

/-- Model of `clinical_history.dict()` for `ClinicalHistoryCreate`. -/
def ClinicalHistoryCreate.toDict (v : ClinicalHistoryCreate) : Json :=
  Json.obj [("document_id", Json.str v.document_id),
    ("stage_at_diagnosis", Json.str v.stage_at_diagnosis),
    ("tumor_aggressiveness", Json.str v.tumor_aggressiveness),
    ("treatment_access", Json.str v.treatment_access),
    ("follow_up_adherence", Json.str v.follow_up_adherence)]

/-- The field names of `ClinicalHistoryUpdate` in declaration order
(`patient_routes.py` lines 66-72). -/
def clinicalHistoryUpdateFieldNames : List String :=
  ["stage_at_diagnosis", "tumor_aggressiveness", "treatment_access",
   "follow_up_adherence"]

/-- Model of `ClinicalHistoryUpdate` (`patient_routes.py` lines 66-72): all
fields optional, with `fields_set` as in `PatientUpdate`. -/
structure ClinicalHistoryUpdate where
  stage_at_diagnosis : Option String
  tumor_aggressiveness : Option String
  treatment_access : Option String
  follow_up_adherence : Option String
  fields_set : List String
deriving DecidableEq, Repr

/-- FastAPI body validation against `ClinicalHistoryUpdate`. -/
def ClinicalHistoryUpdate.validate (j : Json) : Except String ClinicalHistoryUpdate :=
  match j with
  | Json.obj fs =>
    match getOptStr fs "stage_at_diagnosis", getOptStr fs "tumor_aggressiveness",
          getOptStr fs "treatment_access", getOptStr fs "follow_up_adherence" with
    | Except.ok st, Except.ok tu, Except.ok tr, Except.ok fo =>
      Except.ok ⟨st.1, tu.1, tr.1, fo.1,
        clinicalHistoryUpdateFieldNames.filter (fun k => (jlookup fs k).isSome)⟩
    | _, _, _, _ => Except.error "pydantic ValidationError"
  | _ => Except.error "pydantic ValidationError"

/-- Model of `clinical_history_update.dict(exclude_unset=True)`. -/
def ClinicalHistoryUpdate.dictExcludeUnset (v : ClinicalHistoryUpdate) :
    List (String × Json) :=
  (if v.fields_set.contains "stage_at_diagnosis" then
    [("stage_at_diagnosis", optStrJson v.stage_at_diagnosis)] else []) ++
  ((if v.fields_set.contains "tumor_aggressiveness" then
    [("tumor_aggressiveness", optStrJson v.tumor_aggressiveness)] else []) ++
  ((if v.fields_set.contains "treatment_access" then
    [("treatment_access", optStrJson v.treatment_access)] else []) ++
  (if v.fields_set.contains "follow_up_adherence" then
    [("follow_up_adherence", optStrJson v.follow_up_adherence)] else [])))

/-- Serializer of `PatientRead` (`patient_routes.py` lines 29-31: the
`PatientCreate` fields plus `created` and `edited`; optional fields
serialise as null when absent). -/
def PatientRead.serialize : Json → Option Json
  | Json.obj fs => do
    let di ← reqStrField fs "document_id"
    let n ← reqStrField fs "name"
    let a ← reqIntField fs "age"
    let g ← reqStrField fs "gender"
    let ra ← optStrField fs "race"
    let re ← optStrField fs "region"
    let u ← optStrField fs "urban_or_rural"
    let e ← reqEmailField fs "email"
    let ph ← optStrField fs "phone"
    let ad ← optStrField fs "address"
    let cr ← reqStrField fs "created"
    let ed ← reqStrField fs "edited"
    some (Json.obj [("document_id", Json.str di), ("name", Json.str n),
      ("age", Json.num a), ("gender", Json.str g), ("race", optStrJson ra),
      ("region", optStrJson re), ("urban_or_rural", optStrJson u),
      ("email", Json.str e), ("phone", optStrJson ph),
      ("address", optStrJson ad), ("created", Json.str cr),
      ("edited", Json.str ed)])
  | _ => none

/-- Serializer of `ClinicalHistoryRead` (`patient_routes.py` lines
61-64: the `ClinicalHistoryCreate` fields plus `id`, `created`,
`edited`). -/
def ClinicalHistoryRead.serialize : Json → Option Json
  | Json.obj fs => do
    let di ← reqStrField fs "document_id"
    let st ← reqStrField fs "stage_at_diagnosis"
    let tu ← reqStrField fs "tumor_aggressiveness"
    let tr ← reqStrField fs "treatment_access"
    let fo ← reqStrField fs "follow_up_adherence"
    let i ← reqIntField fs "id"
    let cr ← reqStrField fs "created"
    let ed ← reqStrField fs "edited"
    some (Json.obj [("document_id", Json.str di),
      ("stage_at_diagnosis", Json.str st),
      ("tumor_aggressiveness", Json.str tu),
      ("treatment_access", Json.str tr),
      ("follow_up_adherence", Json.str fo), ("id", Json.num i),
      ("created", Json.str cr), ("edited", Json.str ed)])
  | _ => none

/-- The outbound header dict every patient-group handler builds:
`{"authorization": f"Bearer {token.credentials}"} if token else {}`. -/
def patientHeaders : Option String → List (String × String)
  | some t => [("authorization", "Bearer " ++ t)]
  | none => []

/-- The response translation shared by the read/list/update patient
handlers: only status 200 is a success (`if response.status_code != 200:
raise HTTPException(...)`), the transport error is not caught (an
unhandled `httpx.RequestError`, hence a generic 500), and the success
body is parsed with no raw-text fallback, then serialised against the
route's declared response model. -/
def relay200 (backend : Backend) (respModel : Json → Option Json)
    (call : OutboundRequest) : GatewayResult :=
  match backend call with
  | TransportResult.err e => GatewayResult.internalError e
  | TransportResult.ok r =>
    if r.status ≠ 200 then GatewayResult.httpError r.status r.text
    else
      match r.jsonBody with
      | some j => modelFilter 200 respModel j
      | none => GatewayResult.internalError "json decode error"

/-- As `relay200` but for the create handlers (`status_code not in
(200, 201)` and decorator status 201). -/
def relay201 (backend : Backend) (respModel : Json → Option Json)
    (call : OutboundRequest) : GatewayResult :=
  match backend call with
  | TransportResult.err e => GatewayResult.internalError e
  | TransportResult.ok r =>
    if r.status ≠ 200 ∧ r.status ≠ 201 then GatewayResult.httpError r.status r.text
    else
      match r.jsonBody with
      | some j => modelFilter 201 respModel j
      | none => GatewayResult.internalError "json decode error"

/-- As `relay200` but for the delete handlers (`status_code not in
(200, 204)`, `return None` with decorator status 204). -/
def relay204 (backend : Backend) (call : OutboundRequest) : GatewayResult :=
  match backend call with
  | TransportResult.err e => GatewayResult.internalError e
  | TransportResult.ok r =>
    if r.status ≠ 200 ∧ r.status ≠ 204 then GatewayResult.httpError r.status r.text
    else GatewayResult.noContent

/-- Model of `GET /patients/` (`patient_routes.py` lines 78-94): optional `page`
and `page_size` query parameters are forwarded when present; the
outbound path is `/patients` (no trailing slash). -/
def list_patients (patientUrl : String) (backend : Backend)
    (page page_size : Option Int) (token : Option String) :
    GatewayResult × List OutboundRequest :=
  let params :=
    (match page with | some p => [("page", Json.num p)] | none => []) ++
    (match page_size with | some ps => [("page_size", Json.num ps)] | none => [])
  let call : OutboundRequest :=
    ⟨"GET", patientUrl ++ "/patients", patientHeaders token, none, params⟩
  (relay200 backend (listSerialize PatientRead.serialize) call, [call])

/-- Model of `POST /patients/` (`patient_routes.py` lines 96-105). -/
def create_patient (patientUrl : String) (backend : Backend)
    (patient : PatientCreate) (token : Option String) :
    GatewayResult × List OutboundRequest :=
  let call : OutboundRequest :=
    ⟨"POST", patientUrl ++ "/patients", patientHeaders token, some patient.toDict, []⟩
  (relay201 backend PatientRead.serialize call, [call])

/-- Model of `GET /patients/{document_id}` (`patient_routes.py` lines 107-116). -/
def get_patient (patientUrl : String) (backend : Backend) (document_id : String)
    (token : Option String) : GatewayResult × List OutboundRequest :=
  let call : OutboundRequest :=
    ⟨"GET", patientUrl ++ "/patients/" ++ document_id, patientHeaders token, none, []⟩
  (relay200 backend PatientRead.serialize call, [call])

/-- Model of `PATCH /patients/{document_id}` (`patient_routes.py` lines 118-128):
the forwarded body is `patient_update.dict(exclude_unset=True)`. -/
def update_patient (patientUrl : String) (backend : Backend) (document_id : String)
    (patient_update : PatientUpdate) (token : Option String) :
    GatewayResult × List OutboundRequest :=
  let call : OutboundRequest :=
    ⟨"PATCH", patientUrl ++ "/patients/" ++ document_id, patientHeaders token,
      some (Json.obj patient_update.dictExcludeUnset), []⟩
  (relay200 backend PatientRead.serialize call, [call])

/-- Model of `DELETE /patients/{document_id}` (`patient_routes.py` lines 130-139). -/
def delete_patient (patientUrl : String) (backend : Backend) (document_id : String)
    (token : Option String) : GatewayResult × List OutboundRequest :=
  let call : OutboundRequest :=
    ⟨"DELETE", patientUrl ++ "/patients/" ++ document_id, patientHeaders token, none, []⟩
  (relay204 backend call, [call])

/-- Model of `POST /clinical_histories/` (`patient_routes.py` lines 145-154). -/
def create_clinical_history (patientUrl : String) (backend : Backend)
    (clinical_history : ClinicalHistoryCreate) (token : Option String) :
    GatewayResult × List OutboundRequest :=
  let call : OutboundRequest :=
    ⟨"POST", patientUrl ++ "/clinical_histories", patientHeaders token,
      some clinical_history.toDict, []⟩
  (relay201 backend ClinicalHistoryRead.serialize call, [call])

/-- Model of `GET /clinical_histories/{history_id}` (`patient_routes.py` lines
156-165). -/
def get_clinical_history (patientUrl : String) (backend : Backend)
    (history_id : Int) (token : Option String) :
    GatewayResult × List OutboundRequest :=
  let call : OutboundRequest :=
    ⟨"GET", patientUrl ++ "/clinical_histories/" ++ toString history_id,
      patientHeaders token, none, []⟩
  (relay200 backend ClinicalHistoryRead.serialize call, [call])

/-- Model of `PATCH /clinical_histories/{history_id}` (`patient_routes.py` lines
167-177). -/
def update_clinical_history (patientUrl : String) (backend : Backend)
    (history_id : Int) (clinical_history_update : ClinicalHistoryUpdate)
    (token : Option String) : GatewayResult × List OutboundRequest :=
  let call : OutboundRequest :=
    ⟨"PATCH", patientUrl ++ "/clinical_histories/" ++ toString history_id,
      patientHeaders token, some (Json.obj clinical_history_update.dictExcludeUnset), []⟩
  (relay200 backend ClinicalHistoryRead.serialize call, [call])

/-- Model of `DELETE /clinical_histories/{history_id}` (`patient_routes.py`
lines 179-188). -/
def delete_clinical_history (patientUrl : String) (backend : Backend)
    (history_id : Int) (token : Option String) :
    GatewayResult × List OutboundRequest :=
  let call : OutboundRequest :=
    ⟨"DELETE", patientUrl ++ "/clinical_histories/" ++ toString history_id,
      patientHeaders token, none, []⟩
  (relay204 backend call, [call])

/-- Model of `GET /clinical_histories/document/{document_id}`
(`patient_routes.py` lines 190-199). -/
def get_histories_by_document (patientUrl : String) (backend : Backend)
    (document_id : String) (token : Option String) :
    GatewayResult × List OutboundRequest :=
  let call : OutboundRequest :=
    ⟨"GET", patientUrl ++ "/clinical_histories/document/" ++ document_id,
      patientHeaders token, none, []⟩
  (relay200 backend (listSerialize ClinicalHistoryRead.serialize) call, [call])

/-- The PATCH patient route including FastAPI's body validation.  The
declared parameter defaults to `None` (`patient_update: PatientUpdate =
None`), so a request without a body reaches the handler with
`patient_update = None` and `patient_update.dict(...)` is an unhandled
`AttributeError`. -/
def update_patient_route (patientUrl : String) (backend : Backend)
    (document_id : String) (body : Option Json) (token : Option String) :
    GatewayResult × List OutboundRequest :=
  match body with
  | none => (GatewayResult.internalError "AttributeError on None", [])
  | some j =>
    match PatientUpdate.validate j with
    | Except.error e => (GatewayResult.validationError422 e, [])
    | Except.ok m => update_patient patientUrl backend document_id m token

/-- The PATCH clinical-history route including FastAPI's body
validation. -/
def update_clinical_history_route (patientUrl : String) (backend : Backend)
    (history_id : Int) (body : Option Json) (token : Option String) :
    GatewayResult × List OutboundRequest :=
  match body with
  | none => (GatewayResult.internalError "AttributeError on None", [])
  | some j =>
    match ClinicalHistoryUpdate.validate j with
    | Except.error e => (GatewayResult.validationError422 e, [])
    | Except.ok m => update_clinical_history patientUrl backend history_id m token

end patient_routes

namespace recommendation_routes

/-- Model of `HistoryIdRequest` (`recommendation_routes.py` lines 20-21). -/
structure HistoryIdRequest where
  history_id : Int
deriving DecidableEq, Repr

/-- FastAPI body validation against `HistoryIdRequest`. -/
def HistoryIdRequest.validate (j : Json) : Except String HistoryIdRequest :=
  match j with
  | Json.obj fs =>
    match getReqInt fs "history_id" with
    | Except.ok n => Except.ok ⟨n⟩
    | Except.error e => Except.error e
  | _ => Except.error "pydantic ValidationError"

/-- Model of `request_data.dict()` for `HistoryIdRequest`. -/
def HistoryIdRequest.toDict (v : HistoryIdRequest) : Json :=
  Json.obj [("history_id", Json.num v.history_id)]

/-- Serializer of `TreatmentResponse` (`recommendation_routes.py`
lines 23-27). -/
def TreatmentResponse.serialize : Json → Option Json
  | Json.obj fs => do
    let h ← reqIntField fs "history_id"
    let t ← reqStrField fs "treatment"
    let su ← reqBoolField fs "success"
    let m ← reqStrField fs "message"
    some (Json.obj [("history_id", Json.num h), ("treatment", Json.str t),
      ("success", Json.bool su), ("message", Json.str m)])
  | _ => none

/-- The `GET /` and `GET /health` bodies (`recommendation_routes.py`
lines 41-66): a transport error is caught and becomes HTTP 502, but
`response.raise_for_status()` raises `httpx.HTTPStatusError`, which the
`except httpx.RequestError` clause does not catch, so a non-2xx backend
status is an unhandled exception (generic 500).  A 2xx body is parsed
with no raw-text fallback. -/
def probeRelay (backend : Backend) (call : OutboundRequest) : GatewayResult :=
  match backend call with
  | TransportResult.err e =>
    GatewayResult.httpError 502 ("Error de conexión: " ++ e)
  | TransportResult.ok r =>
    if r.status < 200 ∨ 300 ≤ r.status then
      GatewayResult.internalError "httpx.HTTPStatusError"
    else
      match r.jsonBody with
      | some j => GatewayResult.ok 200 j
      | none => GatewayResult.internalError "json decode error"

/-- Model of `GET /` (`recommendation_routes.py` lines 41-52). -/
def root (recUrl : String) (backend : Backend) :
    GatewayResult × List OutboundRequest :=
  let call : OutboundRequest := ⟨"GET", recUrl ++ "/", [], none, []⟩
  (probeRelay backend call, [call])

/-- Model of `GET /health` (`recommendation_routes.py` lines 55-66). -/
def health_check (recUrl : String) (backend : Backend) :
    GatewayResult × List OutboundRequest :=
  let call : OutboundRequest := ⟨"GET", recUrl ++ "/health", [], none, []⟩
  (probeRelay backend call, [call])

/-- Model of `POST /api/v1/predict-and-update` (`recommendation_routes.py` lines
79-101).  The bearer token is optional (`HTTPBearer(auto_error=False)`):
without one the request is forwarded with an empty header dict rather
than rejected with 401. -/
def predict_and_update_treatment (recUrl : String) (backend : Backend)
    (request_data : HistoryIdRequest) (token : Option String) :
    GatewayResult × List OutboundRequest :=
  let headers : List (String × String) :=
    match token with
    | some t => [("Authorization", "Bearer " ++ t)]
    | none => []
  let call : OutboundRequest :=
    ⟨"POST", recUrl ++ "/api/v1/predict-and-update", headers,
      some request_data.toDict, []⟩
  let result : GatewayResult :=
    match backend call with
    | TransportResult.err e =>
      GatewayResult.httpError 502
        ("Error al conectar con el servicio de predicción: " ++ e)
    | TransportResult.ok r =>
      if r.status ≠ 200 then GatewayResult.httpError r.status r.text
      else
        match r.jsonBody with
        | some j => modelFilter 200 TreatmentResponse.serialize j
        | none => GatewayResult.internalError "json decode error"
  (result, [call])

/-- The predict route including FastAPI's body validation of the
declared `HistoryIdRequest` parameter. -/
def predict_and_update_route (recUrl : String) (backend : Backend)
    (body : Option Json) (token : Option String) :
    GatewayResult × List OutboundRequest :=
  match body with
  | none => (GatewayResult.validationError422 "pydantic ValidationError", [])
  | some j =>
    match HistoryIdRequest.validate j with
    | Except.error e => (GatewayResult.validationError422 e, [])
    | Except.ok rd => predict_and_update_treatment recUrl backend rd token

end recommendation_routes


/-! ## Inbound route declarations (the FastAPI decorators), used to
compare inbound verb/path with the outbound call each handler issues. -/

/-- Decorator of `register`. -/
def inbound_register : RouteDecl := ⟨"POST", "/register"⟩

/-- Decorator of `login`. -/
def inbound_login : RouteDecl := ⟨"POST", "/login"⟩

/-- Decorator of `get_me`. -/
def inbound_get_me : RouteDecl := ⟨"GET", "/me"⟩

/-- Decorator of `list_users`. -/
def inbound_list_users : RouteDecl := ⟨"GET", "/admin/users"⟩

/-- Decorator of `list_medicos`. -/
def inbound_list_medicos : RouteDecl := ⟨"GET", "/admin/medicos"⟩

/-- Decorator of `get_user_medico`, instantiated at a path parameter. -/
def inbound_get_user_medico (user_id : String) : RouteDecl :=
  ⟨"GET", "/admin/user-medico/" ++ user_id⟩

/-- Decorator of `update_user_medico`, instantiated at a path parameter. -/
def inbound_update_user_medico (user_id : String) : RouteDecl :=
  ⟨"PUT", "/admin/user-medico/" ++ user_id⟩

/-- Decorator of `search_user_medico`. -/
def inbound_search : RouteDecl := ⟨"GET", "/search"⟩

/-- Decorator of `search_flexible`. -/
def inbound_search_flexible : RouteDecl := ⟨"GET", "/search/flexible"⟩

/-- Decorator of `list_patients` (note the trailing slash). -/
def inbound_list_patients : RouteDecl := ⟨"GET", "/patients/"⟩

/-- Decorator of `create_patient` (note the trailing slash). -/
def inbound_create_patient : RouteDecl := ⟨"POST", "/patients/"⟩

/-- Decorator of `get_patient`, instantiated at a path parameter. -/
def inbound_get_patient (document_id : String) : RouteDecl :=
  ⟨"GET", "/patients/" ++ document_id⟩

/-- Decorator of `update_patient`, instantiated at a path parameter. -/
def inbound_update_patient (document_id : String) : RouteDecl :=
  ⟨"PATCH", "/patients/" ++ document_id⟩

/-- Decorator of `delete_patient`, instantiated at a path parameter. -/
def inbound_delete_patient (document_id : String) : RouteDecl :=
  ⟨"DELETE", "/patients/" ++ document_id⟩

/-- Decorator of `create_clinical_history` (note the trailing slash). -/
def inbound_create_clinical_history : RouteDecl := ⟨"POST", "/clinical_histories/"⟩

/-- Decorator of `get_clinical_history`, instantiated at a path
parameter. -/
def inbound_get_clinical_history (history_id : Int) : RouteDecl :=
  ⟨"GET", "/clinical_histories/" ++ toString history_id⟩

/-- Decorator of `update_clinical_history`, instantiated at a path
parameter. -/
def inbound_update_clinical_history (history_id : Int) : RouteDecl :=
  ⟨"PATCH", "/clinical_histories/" ++ toString history_id⟩

/-- Decorator of `delete_clinical_history`, instantiated at a path
parameter. -/
def inbound_delete_clinical_history (history_id : Int) : RouteDecl :=
  ⟨"DELETE", "/clinical_histories/" ++ toString history_id⟩

/-- Decorator of `get_histories_by_document`, instantiated at a path
parameter. -/
def inbound_get_histories_by_document (document_id : String) : RouteDecl :=
  ⟨"GET", "/clinical_histories/document/" ++ document_id⟩

/-- Decorator of the recommendation `root` probe. -/
def inbound_rec_root : RouteDecl := ⟨"GET", "/"⟩

/-- Decorator of `health_check`. -/
def inbound_health : RouteDecl := ⟨"GET", "/health"⟩

/-- Decorator of `predict_and_update_treatment`. -/
def inbound_predict : RouteDecl := ⟨"POST", "/api/v1/predict-and-update"⟩



/-! ## Helper lemmas about the response translations -/

/-- An auth-group route relaying a backend response with status ≥ 400
raises that status with the raw text as detail. -/
theorem auth_routes.relay_response_error (ss st : Nat)
    (respModel : Json → Option Json) (b : String) (jb : Option Json)
    (h : 400 ≤ st) :
    auth_routes.relay ss respModel (auth_routes.ForwardResult.response ⟨st, b, jb⟩) =
      GatewayResult.httpError st b := by
  simp [auth_routes.relay, auth_routes.handle_response, h]

/-- A patient-group read/list/update handler relaying a non-200 backend
status raises that status with the raw text as detail. -/
theorem patient_routes.relay200_status (st : Nat)
    (respModel : Json → Option Json) (b : String) (jb : Option Json)
    (call : OutboundRequest) (h : st ≠ 200) :
    patient_routes.relay200 (fun _ => TransportResult.ok ⟨st, b, jb⟩) respModel call =
      GatewayResult.httpError st b := by
  simp [patient_routes.relay200, h]

/-- A patient-group create handler relaying a backend status outside
{200, 201} raises that status with the raw text as detail. -/
theorem patient_routes.relay201_status (st : Nat)
    (respModel : Json → Option Json) (b : String) (jb : Option Json)
    (call : OutboundRequest) (h1 : st ≠ 200) (h2 : st ≠ 201) :
    patient_routes.relay201 (fun _ => TransportResult.ok ⟨st, b, jb⟩) respModel call =
      GatewayResult.httpError st b := by
  simp [patient_routes.relay201, h1, h2]

/-- A patient-group delete handler relaying a backend status outside
{200, 204} raises that status with the raw text as detail. -/
theorem patient_routes.relay204_status (st : Nat) (b : String) (jb : Option Json)
    (call : OutboundRequest) (h1 : st ≠ 200) (h2 : st ≠ 204) :
    patient_routes.relay204 (fun _ => TransportResult.ok ⟨st, b, jb⟩) call =
      GatewayResult.httpError st b := by
  simp [patient_routes.relay204, h1, h2]

/-- A recommendation probe route receiving a backend status ≥ 300 fails
with the unhandled `httpx.HTTPStatusError`. -/
theorem recommendation_routes.probeRelay_status (st : Nat) (b : String)
    (jb : Option Json) (call : OutboundRequest) (h : 300 ≤ st) :
    recommendation_routes.probeRelay (fun _ => TransportResult.ok ⟨st, b, jb⟩) call =
      GatewayResult.internalError "httpx.HTTPStatusError" := by
  simp [recommendation_routes.probeRelay, h]

/-- The predict handler relaying a non-200 backend status raises that
status with the raw text as detail. -/
theorem recommendation_routes.predict_status (recUrl : String) (st : Nat)
    (b : String) (jb : Option Json) (rd : recommendation_routes.HistoryIdRequest)
    (tok : Option String) (h : st ≠ 200) :
    (recommendation_routes.predict_and_update_treatment recUrl
        (fun _ => TransportResult.ok ⟨st, b, jb⟩) rd tok).1 =
      GatewayResult.httpError st b := by
  simp [recommendation_routes.predict_and_update_treatment, h]

/-- Concatenation of strings is associative (used to relate the
outbound URLs, built left-associatively, to base-plus-path claims). -/
theorem str_append_assoc (a b c : String) : a ++ b ++ c = a ++ (b ++ c) := by
  rcases a with ⟨la⟩; rcases b with ⟨lb⟩; rcases c with ⟨lc⟩
  show String.mk (la ++ lb ++ lc) = String.mk (la ++ (lb ++ lc))
  rw [List.append_assoc]


/-- A `relay200` outcome is a 401 error only when the backend itself
answered 401. -/
theorem patient_routes.relay200_not401 (st : Nat)
    (respModel : Json → Option Json) (txt : String) (jb : Option Json)
    (call : OutboundRequest) (h : st ≠ 401) :
    (patient_routes.relay200 (fun _ => TransportResult.ok ⟨st, txt, jb⟩)
      respModel call).is401 = false := by
  unfold patient_routes.relay200
  by_cases h2 : st = 200
  · subst h2
    cases jb with
    | none => simp [GatewayResult.is401]
    | some j =>
      simp only [modelFilter]
      cases respModel j <;> simp [GatewayResult.is401]
  · simp only [h2, ne_eq, not_false_eq_true, if_true, GatewayResult.is401]
    exact beq_eq_false_iff_ne.mpr h

/-- A `relay201` outcome is a 401 error only when the backend itself
answered 401. -/
theorem patient_routes.relay201_not401 (st : Nat)
    (respModel : Json → Option Json) (txt : String) (jb : Option Json)
    (call : OutboundRequest) (h : st ≠ 401) :
    (patient_routes.relay201 (fun _ => TransportResult.ok ⟨st, txt, jb⟩)
      respModel call).is401 = false := by
  unfold patient_routes.relay201
  by_cases h2 : st = 200
  · subst h2
    cases jb with
    | none => simp [GatewayResult.is401]
    | some j =>
      simp only [modelFilter]
      cases respModel j <;> simp [GatewayResult.is401]
  · by_cases h3 : st = 201
    · subst h3
      cases jb with
      | none => simp [GatewayResult.is401]
      | some j =>
        simp only [modelFilter]
        cases respModel j <;> simp [GatewayResult.is401]
    · simp only [h2, h3, ne_eq, not_false_eq_true, and_self, if_true, GatewayResult.is401]
      exact beq_eq_false_iff_ne.mpr h

/-- A `relay204` outcome is a 401 error only when the backend itself
answered 401. -/
theorem patient_routes.relay204_not401 (st : Nat) (txt : String) (jb : Option Json)
    (call : OutboundRequest) (h : st ≠ 401) :
    (patient_routes.relay204 (fun _ => TransportResult.ok ⟨st, txt, jb⟩) call).is401 =
      false := by
  unfold patient_routes.relay204
  by_cases h2 : st = 200
  · subst h2; simp [GatewayResult.is401]
  · by_cases h3 : st = 204
    · subst h3; simp [GatewayResult.is401]
    · simp only [h2, h3, ne_eq, not_false_eq_true, and_self, if_true, GatewayResult.is401]
      exact beq_eq_false_iff_ne.mpr h


/-- Reading an optional string field determines the underlying JSON
lookup: present iff the recorded flag is set, with the value serialised
back by `optStrJson`. -/
theorem getOptStr_ok (fs : List (String × Json)) (k : String) (v : Option String)
    (b : Bool) (h : getOptStr fs k = Except.ok (v, b)) :
    jlookup fs k = if b then some (optStrJson v) else none := by
  unfold getOptStr at h
  rcases hl : jlookup fs k with _ | j
  · rw [hl] at h
    simp only [Except.ok.injEq, Prod.mk.injEq] at h
    rw [← h.1, ← h.2]; rfl
  · rw [hl] at h
    cases j
    case null =>
      simp only [Except.ok.injEq, Prod.mk.injEq] at h
      rw [← h.1, ← h.2]; rfl
    case str t =>
      simp only [Except.ok.injEq, Prod.mk.injEq] at h
      rw [← h.1, ← h.2]; rfl
    all_goals simp at h

/-- As `getOptStr_ok`, for optional integer fields. -/
theorem getOptInt_ok (fs : List (String × Json)) (k : String) (v : Option Int)
    (b : Bool) (h : getOptInt fs k = Except.ok (v, b)) :
    jlookup fs k = if b then some (optIntJson v) else none := by
  unfold getOptInt at h
  rcases hl : jlookup fs k with _ | j
  · rw [hl] at h
    simp only [Except.ok.injEq, Prod.mk.injEq] at h
    rw [← h.1, ← h.2]; rfl
  · rw [hl] at h
    cases j
    case null =>
      simp only [Except.ok.injEq, Prod.mk.injEq] at h
      rw [← h.1, ← h.2]; rfl
    case num t =>
      simp only [Except.ok.injEq, Prod.mk.injEq] at h
      rw [← h.1, ← h.2]; rfl
    all_goals simp at h

/-- As `getOptStr_ok`, for optional `EmailStr` fields. -/
theorem getOptEmail_ok (fs : List (String × Json)) (k : String) (v : Option String)
    (b : Bool) (h : getOptEmail fs k = Except.ok (v, b)) :
    jlookup fs k = if b then some (optStrJson v) else none := by
  unfold getOptEmail at h
  rcases hl : jlookup fs k with _ | j
  · rw [hl] at h
    simp only [Except.ok.injEq, Prod.mk.injEq] at h
    rw [← h.1, ← h.2]; rfl
  · rw [hl] at h
    cases j
    case null =>
      simp only [Except.ok.injEq, Prod.mk.injEq] at h
      rw [← h.1, ← h.2]; rfl
    case str t =>
      by_cases he : isValidEmail t
      · simp only [he, if_true, Except.ok.injEq, Prod.mk.injEq] at h
        rw [← h.1, ← h.2]; rfl
      · simp only [he, if_false, Bool.false_eq_true, reduceIte] at h
        simp at h
    all_goals simp at h

/-- Looking up a key different from the head of a conditional singleton
skips it. -/
theorem lookup_cond_skip (c : Bool) (k q : String) (v : Json)
    (rest : List (String × Json)) (h : (q == k) = false) :
    List.lookup q ((if c then [(k, v)] else []) ++ rest) = List.lookup q rest := by
  cases c <;> simp [List.lookup, h]

/-- Looking up the key of a conditional singleton yields its value
exactly when the condition holds (given the key does not occur further
right). -/
theorem lookup_cond_self (c : Bool) (k : String) (v : Json)
    (rest : List (String × Json)) (hrest : List.lookup k rest = none) :
    List.lookup k ((if c then [(k, v)] else []) ++ rest) =
      if c then some v else none := by
  cases c <;> simp [List.lookup, hrest]

/-- Model of `contains` of a filtered list skips heads with a different key. -/
theorem contains_filter_cons (p : String → Bool) (k q : String) (xs : List String)
    (h : (q == k) = false) :
    (List.filter p (k :: xs)).contains q = (List.filter p xs).contains q := by
  cases hp : p k
  · simp [List.filter_cons, hp]
  · rw [List.filter_cons, if_pos hp, List.contains_cons, h, Bool.false_or]

/-- Model of `contains` of a filtered list whose head is the sought key reduces
to the predicate (given the key does not occur further right). -/
theorem contains_filter_self (p : String → Bool) (q : String) (xs : List String)
    (hxs : (List.filter p xs).contains q = false) :
    (List.filter p (q :: xs)).contains q = p q := by
  cases hp : p q
  · rw [List.filter_cons]
    simp [hp, hxs]
  · rw [List.filter_cons, if_pos hp, List.contains_cons]
    simp [hp]

/-- Model of `all` over a conditional singleton. -/
theorem all_cond {α : Type} (c : Bool) (x : α) (p : α → Bool) :
    (if c then [x] else []).all p = (!c || p x) := by
  cases c <;> simp


/-- Looking up a key different from that of a bare conditional
singleton. -/
theorem lookup_cond_skip1 (c : Bool) (k q : String) (v : Json)
    (h : (q == k) = false) :
    List.lookup q (if c then [(k, v)] else []) = none := by
  cases c <;> simp [List.lookup, h]

/-- Looking up the key of a bare conditional singleton. -/
theorem lookup_cond_self1 (c : Bool) (k : String) (v : Json) :
    List.lookup k (if c then [(k, v)] else []) = if c then some v else none := by
  cases c <;> simp [List.lookup]

/-! ## Claim theorems -/

/-- C8: a POST to `/api/v1/predict-and-update` with body
`{"history_id": 7}` and a bearer token forwards exactly the JSON body
`{"history_id": 7}` to the recommendation backend at the identical path
`/api/v1/predict-and-update`, with the bearer token copied into the
outbound `Authorization` header as `Bearer <token>`. -/
theorem C8_predict_forwards_exact_body_and_bearer (recUrl tok : String)
    (backend : Backend) :
    (recommendation_routes.predict_and_update_route recUrl backend
        (some (Json.obj [("history_id", Json.num 7)])) (some tok)).2 =
      [⟨"POST", recUrl ++ "/api/v1/predict-and-update",
        [("Authorization", "Bearer " ++ tok)],
        some (Json.obj [("history_id", Json.num 7)]), []⟩] := by
  rfl

/-- C5 counterexample: the forwarder invoked with the verb `PATCH` does
not issue any outbound call; it fails with HTTP 405 ("Método no
permitido") — so PATCH (and likewise DELETE) is not in the allow-list,
contrary to the claim. -/
theorem C5_counterexample :
    auth_routes.forward_request "https://oncoapp-239j.onrender.com"
        (fun _ => TransportResult.ok ⟨200, "ok", none⟩) "PATCH" "/x"
        ⟨[], [], some (Json.obj [("a", Json.num 1)])⟩ false
        (some (Json.obj [("a", Json.num 1)])) none none =
      (auth_routes.ForwardResult.httpError 405 "Método no permitido", []) := by
  rfl

/-- C5 (amended): the request forwarder issues the outbound call for
each of the verbs GET, POST and PUT, and for any verb outside this
allow-list — including PATCH and DELETE — it fails with HTTP 405
("method not supported") without contacting the backend. -/
theorem C5_amended_allow_list_is_get_post_put (authUrl endpoint tok : String)
    (backend : Backend) (request : InboundRequest) (data : Json)
    (hdata : pyTruthy data = true) (method : String)
    (hm : method ∉ (["GET", "POST", "PUT"] : List String)) :
    (auth_routes.forward_request authUrl backend "GET" endpoint request true
        none none (some tok)).2.length = 1 ∧
    (auth_routes.forward_request authUrl backend "POST" endpoint request true
        (some data) none (some tok)).2.length = 1 ∧
    (auth_routes.forward_request authUrl backend "PUT" endpoint request true
        (some data) none (some tok)).2.length = 1 ∧
    auth_routes.forward_request authUrl backend method endpoint request true
        none none (some tok) =
      (auth_routes.ForwardResult.httpError 405 "Método no permitido", []) := by
  simp only [List.mem_cons, List.mem_singleton, not_or] at hm
  obtain ⟨h1, h2, h3, _⟩ := hm
  refine ⟨rfl, ?_, ?_, ?_⟩
  · simp [auth_routes.forward_request, auth_routes.forward_send, pyOrJson, hdata,
      auth_routes.send]
  · simp [auth_routes.forward_request, auth_routes.forward_send, pyOrJson, hdata,
      auth_routes.send]
  · simp [auth_routes.forward_request, auth_routes.forward_send, h1, h2, h3]

/-- Witness for C5 (amended) at the concrete verb PATCH and a concrete
nonempty body. -/
theorem C5_amended_witness :
    pyTruthy (Json.obj [("a", Json.num 1)]) = true ∧
    "PATCH" ∉ (["GET", "POST", "PUT"] : List String) ∧
    ((auth_routes.forward_request "u" (fun _ => TransportResult.err "boom") "GET" "/e"
        ⟨[], [], none⟩ true none none (some "t")).2.length = 1 ∧
     (auth_routes.forward_request "u" (fun _ => TransportResult.err "boom") "POST" "/e"
        ⟨[], [], none⟩ true (some (Json.obj [("a", Json.num 1)])) none (some "t")).2.length = 1 ∧
     (auth_routes.forward_request "u" (fun _ => TransportResult.err "boom") "PUT" "/e"
        ⟨[], [], none⟩ true (some (Json.obj [("a", Json.num 1)])) none (some "t")).2.length = 1 ∧
     auth_routes.forward_request "u" (fun _ => TransportResult.err "boom") "PATCH" "/e"
        ⟨[], [], none⟩ true none none (some "t") =
       (auth_routes.ForwardResult.httpError 405 "Método no permitido", [])) :=
  ⟨rfl, by decide,
   C5_amended_allow_list_is_get_post_put "u" "/e" "t"
     (fun _ => TransportResult.err "boom") ⟨[], [], none⟩
     (Json.obj [("a", Json.num 1)]) rfl "PATCH" (by decide)⟩

/-- C1 counterexample: `POST /api/v1/predict-and-update` is a
bearer-required route of the gateway's surface, yet a request without a
bearer credential is not answered with 401 — the handler issues the
outbound call (with an empty header dict) and relays the backend's
response.  The backend body used here conforms to the route's declared
`response_model=TreatmentResponse`, so response serialization passes
and the caller observes the relayed 200. -/
theorem C1_counterexample :
    recommendation_routes.predict_and_update_treatment
        "https://oncoai-4rec.onrender.com"
        (fun _ => TransportResult.ok ⟨200, "ok",
          some (Json.obj [("history_id", Json.num 7),
            ("treatment", Json.str "Chemotherapy"),
            ("success", Json.bool true), ("message", Json.str "updated")])⟩)
        ⟨7⟩ none =
      (GatewayResult.ok 200 (Json.obj [("history_id", Json.num 7),
        ("treatment", Json.str "Chemotherapy"), ("success", Json.bool true),
        ("message", Json.str "updated")]),
       [⟨"POST", "https://oncoai-4rec.onrender.com/api/v1/predict-and-update", [],
         some (Json.obj [("history_id", Json.num 7)]), []⟩]) := by
  rfl

/-- C1 (amended): for every auth-group route invoked with
`requires_auth` (the `/me`, admin and search routes), a request carrying
no bearer credential yields HTTP 401 ("Token de autorización faltante")
and no outbound call is issued; the recommendation route
`POST /api/v1/predict-and-update`, although documented as
bearer-required, does not enforce the credential locally: without a
token it issues the outbound call with an empty header dict.  (For the
PUT admin route the body is validated before the credential check, so
the 401 is stated for a body accepted by `UserMedicoUpdateIn`.) -/
theorem C1_amended_missing_bearer (authUrl recUrl user_id q : String)
    (backend : Backend) (request : InboundRequest)
    (email tipo_doc doc : Option String) (body : Json)
    (v : auth_routes.UserMedicoUpdateIn)
    (hbody : auth_routes.UserMedicoUpdateIn.validate body = Except.ok v)
    (rd : recommendation_routes.HistoryIdRequest) :
    auth_routes.get_me authUrl backend request none =
      (GatewayResult.httpError 401 "Token de autorización faltante", []) ∧
    auth_routes.list_users authUrl backend request none =
      (GatewayResult.httpError 401 "Token de autorización faltante", []) ∧
    auth_routes.list_medicos authUrl backend request none =
      (GatewayResult.httpError 401 "Token de autorización faltante", []) ∧
    auth_routes.get_user_medico authUrl backend user_id request none =
      (GatewayResult.httpError 401 "Token de autorización faltante", []) ∧
    auth_routes.update_user_medico authUrl backend user_id
        ⟨request.headers, request.queryParams, some body⟩ none =
      (GatewayResult.httpError 401 "Token de autorización faltante", []) ∧
    auth_routes.search_user_medico authUrl backend request email tipo_doc doc none =
      (GatewayResult.httpError 401 "Token de autorización faltante", []) ∧
    auth_routes.search_flexible authUrl backend request q none =
      (GatewayResult.httpError 401 "Token de autorización faltante", []) ∧
    (recommendation_routes.predict_and_update_treatment recUrl backend rd none).2 =
      [⟨"POST", recUrl ++ "/api/v1/predict-and-update", [], some rd.toDict, []⟩] := by
  refine ⟨rfl, rfl, rfl, rfl, ?_, rfl, rfl, rfl⟩
  simp [auth_routes.update_user_medico, hbody, auth_routes.forward_request,
    auth_routes.relay]

/-- Witness for C1 (amended): the empty JSON object is a valid
`UserMedicoUpdateIn` body (all fields optional). -/
theorem C1_amended_witness :
    auth_routes.UserMedicoUpdateIn.validate (Json.obj []) =
      Except.ok ⟨none, none, none, none, none, none, none, none⟩ ∧
    auth_routes.get_me "u" (fun _ => TransportResult.err "boom") ⟨[], [], none⟩ none =
      (GatewayResult.httpError 401 "Token de autorización faltante", []) :=
  ⟨rfl,
   (C1_amended_missing_bearer "u" "r" "id7" "qq" (fun _ => TransportResult.err "boom")
     ⟨[], [], none⟩ none none none (Json.obj [])
     ⟨none, none, none, none, none, none, none, none⟩ rfl ⟨7⟩).1⟩


/-- C2 counterexample: on a patient-group route, a transport-level
failure (connection refused) is not translated to HTTP 502 — the
`httpx.RequestError` is uncaught (there is no try/except in
`patient_routes.py`), so the gateway fails with a generic internal
error. -/
theorem C2_counterexample :
    patient_routes.list_patients "https://patientoncoassist.onrender.com"
        (fun _ => TransportResult.err "connection refused") none none none =
      (GatewayResult.internalError "connection refused",
       [⟨"GET", "https://patientoncoassist.onrender.com/patients", [], none, []⟩]) := by
  rfl

/-- C2 (amended): when the outbound call fails at the transport level,
the auth-group routes respond HTTP 502 with a detail wrapping the
underlying error text, and so do the three recommendation-group routes;
the patient-group routes do not catch the transport error at all, so
they fail with a generic internal error (500) instead of 502. -/
theorem C2_amended_transport_failure (msg authUrl patientUrl recUrl user_id q di : String)
    (hid : Int) (email tipo_doc doc : Option String) :
    (auth_routes.register authUrl (fun _ => TransportResult.err msg)
        ⟨[], [], some (Json.obj [("email", Json.str "a@b.c"), ("password", Json.str "x"),
          ("nombres", Json.str "n"), ("apellidos", Json.str "a"),
          ("tipo_doc", Json.str "CC"), ("doc", Json.str "1"),
          ("especialidades", Json.str "onco")])⟩).1 =
      GatewayResult.httpError 502
        ("Error al contactar el servicio de autenticación: " ++ msg) ∧
    (auth_routes.login authUrl (fun _ => TransportResult.err msg)
        ⟨[], [], some (Json.obj [("email", Json.str "a@b.c"),
          ("password", Json.str "x")])⟩).1 =
      GatewayResult.httpError 502
        ("Error al contactar el servicio de autenticación: " ++ msg) ∧
    (auth_routes.get_me authUrl (fun _ => TransportResult.err msg) ⟨[], [], none⟩
        (some "t")).1 =
      GatewayResult.httpError 502
        ("Error al contactar el servicio de autenticación: " ++ msg) ∧
    (auth_routes.list_users authUrl (fun _ => TransportResult.err msg) ⟨[], [], none⟩
        (some "t")).1 =
      GatewayResult.httpError 502
        ("Error al contactar el servicio de autenticación: " ++ msg) ∧
    (auth_routes.list_medicos authUrl (fun _ => TransportResult.err msg) ⟨[], [], none⟩
        (some "t")).1 =
      GatewayResult.httpError 502
        ("Error al contactar el servicio de autenticación: " ++ msg) ∧
    (auth_routes.get_user_medico authUrl (fun _ => TransportResult.err msg) user_id
        ⟨[], [], none⟩ (some "t")).1 =
      GatewayResult.httpError 502
        ("Error al contactar el servicio de autenticación: " ++ msg) ∧
    (auth_routes.update_user_medico authUrl (fun _ => TransportResult.err msg) user_id
        ⟨[], [], some (Json.obj [("email", Json.str "a@b.c")])⟩ (some "t")).1 =
      GatewayResult.httpError 502
        ("Error al contactar el servicio de autenticación: " ++ msg) ∧
    (auth_routes.search_user_medico authUrl (fun _ => TransportResult.err msg)
        ⟨[], [], none⟩ email tipo_doc doc (some "t")).1 =
      GatewayResult.httpError 502
        ("Error al contactar el servicio de autenticación: " ++ msg) ∧
    (auth_routes.search_flexible authUrl (fun _ => TransportResult.err msg)
        ⟨[], [], none⟩ q (some "t")).1 =
      GatewayResult.httpError 502
        ("Error al contactar el servicio de autenticación: " ++ msg) ∧
    (patient_routes.list_patients patientUrl (fun _ => TransportResult.err msg)
        none none none).1 = GatewayResult.internalError msg ∧
    (patient_routes.create_patient patientUrl (fun _ => TransportResult.err msg)
        ⟨"d1", "n", 30, "F", none, none, none, "a@b.c", none, none⟩ none).1 =
      GatewayResult.internalError msg ∧
    (patient_routes.get_patient patientUrl (fun _ => TransportResult.err msg) di
        none).1 = GatewayResult.internalError msg ∧
    (patient_routes.update_patient patientUrl (fun _ => TransportResult.err msg) di
        ⟨none, none, none, none, none, none, none, none, none, []⟩ none).1 =
      GatewayResult.internalError msg ∧
    (patient_routes.delete_patient patientUrl (fun _ => TransportResult.err msg) di
        none).1 = GatewayResult.internalError msg ∧
    (patient_routes.create_clinical_history patientUrl (fun _ => TransportResult.err msg)
        ⟨"d1", "s", "t", "a", "f"⟩ none).1 = GatewayResult.internalError msg ∧
    (patient_routes.get_clinical_history patientUrl (fun _ => TransportResult.err msg)
        hid none).1 = GatewayResult.internalError msg ∧
    (patient_routes.update_clinical_history patientUrl (fun _ => TransportResult.err msg)
        hid ⟨none, none, none, none, []⟩ none).1 = GatewayResult.internalError msg ∧
    (patient_routes.delete_clinical_history patientUrl (fun _ => TransportResult.err msg)
        hid none).1 = GatewayResult.internalError msg ∧
    (patient_routes.get_histories_by_document patientUrl (fun _ => TransportResult.err msg)
        di none).1 = GatewayResult.internalError msg ∧
    (recommendation_routes.root recUrl (fun _ => TransportResult.err msg)).1 =
      GatewayResult.httpError 502 ("Error de conexión: " ++ msg) ∧
    (recommendation_routes.health_check recUrl (fun _ => TransportResult.err msg)).1 =
      GatewayResult.httpError 502 ("Error de conexión: " ++ msg) ∧
    (recommendation_routes.predict_and_update_treatment recUrl
        (fun _ => TransportResult.err msg) ⟨7⟩ (some "t")).1 =
      GatewayResult.httpError 502
        ("Error al conectar con el servicio de predicción: " ++ msg) :=
  ⟨rfl, rfl, rfl, rfl, rfl, rfl, rfl, rfl, rfl, rfl, rfl, rfl, rfl, rfl, rfl,
   rfl, rfl, rfl, rfl, rfl, rfl, rfl⟩

/-- C3 counterexample: on the recommendation probe route `GET /`, a
backend response with status 404 and body "not found" is not relayed as
HTTP 404 with detail "not found": `response.raise_for_status()` raises
`httpx.HTTPStatusError`, which the `except httpx.RequestError` clause
does not catch, so the gateway fails with a generic internal error. -/
theorem C3_counterexample :
    recommendation_routes.root "https://oncoai-4rec.onrender.com"
        (fun _ => TransportResult.ok ⟨404, "not found", none⟩) =
      (GatewayResult.internalError "httpx.HTTPStatusError",
       [⟨"GET", "https://oncoai-4rec.onrender.com/", [], none, []⟩]) := by
  rfl

/-- C3 (amended): when the backend responds with a status code ≥ 400 and
body text B, every auth-group route, every patient-group route and the
predict route fail with that same status code and detail B; the two
recommendation probe routes `GET /` and `GET /health` instead fail with
a generic internal error (the `httpx.HTTPStatusError` raised by
`raise_for_status` is not caught). -/
theorem C3_amended_backend_error_passthrough (st : Nat) (b : String)
    (authUrl patientUrl recUrl user_id q di : String) (hid : Int)
    (email tipo_doc doc : Option String) (h : 400 ≤ st) :
    (auth_routes.register authUrl (fun _ => TransportResult.ok ⟨st, b, none⟩)
        ⟨[], [], some (Json.obj [("email", Json.str "a@b.c"), ("password", Json.str "x"),
          ("nombres", Json.str "n"), ("apellidos", Json.str "a"),
          ("tipo_doc", Json.str "CC"), ("doc", Json.str "1"),
          ("especialidades", Json.str "onco")])⟩).1 = GatewayResult.httpError st b ∧
    (auth_routes.login authUrl (fun _ => TransportResult.ok ⟨st, b, none⟩)
        ⟨[], [], some (Json.obj [("email", Json.str "a@b.c"),
          ("password", Json.str "x")])⟩).1 = GatewayResult.httpError st b ∧
    (auth_routes.get_me authUrl (fun _ => TransportResult.ok ⟨st, b, none⟩)
        ⟨[], [], none⟩ (some "t")).1 = GatewayResult.httpError st b ∧
    (auth_routes.list_users authUrl (fun _ => TransportResult.ok ⟨st, b, none⟩)
        ⟨[], [], none⟩ (some "t")).1 = GatewayResult.httpError st b ∧
    (auth_routes.list_medicos authUrl (fun _ => TransportResult.ok ⟨st, b, none⟩)
        ⟨[], [], none⟩ (some "t")).1 = GatewayResult.httpError st b ∧
    (auth_routes.get_user_medico authUrl (fun _ => TransportResult.ok ⟨st, b, none⟩)
        user_id ⟨[], [], none⟩ (some "t")).1 = GatewayResult.httpError st b ∧
    (auth_routes.update_user_medico authUrl (fun _ => TransportResult.ok ⟨st, b, none⟩)
        user_id ⟨[], [], some (Json.obj [("email", Json.str "a@b.c")])⟩ (some "t")).1 =
      GatewayResult.httpError st b ∧
    (auth_routes.search_user_medico authUrl (fun _ => TransportResult.ok ⟨st, b, none⟩)
        ⟨[], [], none⟩ email tipo_doc doc (some "t")).1 = GatewayResult.httpError st b ∧
    (auth_routes.search_flexible authUrl (fun _ => TransportResult.ok ⟨st, b, none⟩)
        ⟨[], [], none⟩ q (some "t")).1 = GatewayResult.httpError st b ∧
    (patient_routes.list_patients patientUrl (fun _ => TransportResult.ok ⟨st, b, none⟩)
        none none none).1 = GatewayResult.httpError st b ∧
    (patient_routes.create_patient patientUrl (fun _ => TransportResult.ok ⟨st, b, none⟩)
        ⟨"d1", "n", 30, "F", none, none, none, "a@b.c", none, none⟩ none).1 =
      GatewayResult.httpError st b ∧
    (patient_routes.get_patient patientUrl (fun _ => TransportResult.ok ⟨st, b, none⟩)
        di none).1 = GatewayResult.httpError st b ∧
    (patient_routes.update_patient patientUrl (fun _ => TransportResult.ok ⟨st, b, none⟩)
        di ⟨none, none, none, none, none, none, none, none, none, []⟩ none).1 =
      GatewayResult.httpError st b ∧
    (patient_routes.delete_patient patientUrl (fun _ => TransportResult.ok ⟨st, b, none⟩)
        di none).1 = GatewayResult.httpError st b ∧
    (patient_routes.create_clinical_history patientUrl
        (fun _ => TransportResult.ok ⟨st, b, none⟩) ⟨"d1", "s", "t", "a", "f"⟩ none).1 =
      GatewayResult.httpError st b ∧
    (patient_routes.get_clinical_history patientUrl
        (fun _ => TransportResult.ok ⟨st, b, none⟩) hid none).1 =
      GatewayResult.httpError st b ∧
    (patient_routes.update_clinical_history patientUrl
        (fun _ => TransportResult.ok ⟨st, b, none⟩) hid
        ⟨none, none, none, none, []⟩ none).1 = GatewayResult.httpError st b ∧
    (patient_routes.delete_clinical_history patientUrl
        (fun _ => TransportResult.ok ⟨st, b, none⟩) hid none).1 =
      GatewayResult.httpError st b ∧
    (patient_routes.get_histories_by_document patientUrl
        (fun _ => TransportResult.ok ⟨st, b, none⟩) di none).1 =
      GatewayResult.httpError st b ∧
    (recommendation_routes.root recUrl (fun _ => TransportResult.ok ⟨st, b, none⟩)).1 =
      GatewayResult.internalError "httpx.HTTPStatusError" ∧
    (recommendation_routes.health_check recUrl
        (fun _ => TransportResult.ok ⟨st, b, none⟩)).1 =
      GatewayResult.internalError "httpx.HTTPStatusError" ∧
    (recommendation_routes.predict_and_update_treatment recUrl
        (fun _ => TransportResult.ok ⟨st, b, none⟩) ⟨7⟩ (some "t")).1 =
      GatewayResult.httpError st b := by
  have h200 : st ≠ 200 := by omega
  have h201 : st ≠ 201 := by omega
  have h204 : st ≠ 204 := by omega
  have h300 : 300 ≤ st := by omega
  refine ⟨?_, ?_, ?_, ?_, ?_, ?_, ?_, ?_, ?_, ?_, ?_, ?_, ?_, ?_, ?_, ?_, ?_,
    ?_, ?_, ?_, ?_, ?_⟩
  · exact auth_routes.relay_response_error 201 st respDict b none h
  · exact auth_routes.relay_response_error 200 st auth_routes.TokenOut.serialize b none h
  · exact auth_routes.relay_response_error 200 st auth_routes.UserOut.serialize b none h
  · exact auth_routes.relay_response_error 200 st
      (listSerialize auth_routes.UserOut.serialize) b none h
  · exact auth_routes.relay_response_error 200 st
      (listSerialize auth_routes.MedicoOut.serialize) b none h
  · exact auth_routes.relay_response_error 200 st
      auth_routes.UserMedicoUpdateOut.serialize b none h
  · exact auth_routes.relay_response_error 200 st
      auth_routes.UserMedicoUpdateOut.serialize b none h
  · exact auth_routes.relay_response_error 200 st
      auth_routes.SearchResult.serialize b none h
  · exact auth_routes.relay_response_error 200 st
      (listSerialize auth_routes.SearchResult.serialize) b none h
  · exact patient_routes.relay200_status st
      (listSerialize patient_routes.PatientRead.serialize) b none
      ⟨"GET", patientUrl ++ "/patients", [], none, []⟩ h200
  · exact patient_routes.relay201_status st
      patient_routes.PatientRead.serialize b none
      ⟨"POST", patientUrl ++ "/patients", [],
        some (patient_routes.PatientCreate.toDict
          ⟨"d1", "n", 30, "F", none, none, none, "a@b.c", none, none⟩), []⟩ h200 h201
  · exact patient_routes.relay200_status st
      patient_routes.PatientRead.serialize b none
      ⟨"GET", patientUrl ++ "/patients/" ++ di, [], none, []⟩ h200
  · exact patient_routes.relay200_status st
      patient_routes.PatientRead.serialize b none
      ⟨"PATCH", patientUrl ++ "/patients/" ++ di, [],
        some (Json.obj (patient_routes.PatientUpdate.dictExcludeUnset
          ⟨none, none, none, none, none, none, none, none, none, []⟩)), []⟩ h200
  · exact patient_routes.relay204_status st b none
      ⟨"DELETE", patientUrl ++ "/patients/" ++ di, [], none, []⟩ h200 h204
  · exact patient_routes.relay201_status st
      patient_routes.ClinicalHistoryRead.serialize b none
      ⟨"POST", patientUrl ++ "/clinical_histories", [],
        some (patient_routes.ClinicalHistoryCreate.toDict
          ⟨"d1", "s", "t", "a", "f"⟩), []⟩ h200 h201
  · exact patient_routes.relay200_status st
      patient_routes.ClinicalHistoryRead.serialize b none
      ⟨"GET", patientUrl ++ "/clinical_histories/" ++ toString hid, [], none, []⟩ h200
  · exact patient_routes.relay200_status st
      patient_routes.ClinicalHistoryRead.serialize b none
      ⟨"PATCH", patientUrl ++ "/clinical_histories/" ++ toString hid, [],
        some (Json.obj (patient_routes.ClinicalHistoryUpdate.dictExcludeUnset
          ⟨none, none, none, none, []⟩)), []⟩ h200
  · exact patient_routes.relay204_status st b none
      ⟨"DELETE", patientUrl ++ "/clinical_histories/" ++ toString hid, [], none, []⟩ h200 h204
  · exact patient_routes.relay200_status st
      (listSerialize patient_routes.ClinicalHistoryRead.serialize) b none
      ⟨"GET", patientUrl ++ "/clinical_histories/document/" ++ di, [], none, []⟩ h200
  · exact recommendation_routes.probeRelay_status st b none
      ⟨"GET", recUrl ++ "/", [], none, []⟩ h300
  · exact recommendation_routes.probeRelay_status st b none
      ⟨"GET", recUrl ++ "/health", [], none, []⟩ h300
  · exact recommendation_routes.predict_status recUrl st b none ⟨7⟩ (some "t") h200

/-- Witness for C3 (amended) at backend status 404 with body "not
found". -/
theorem C3_amended_witness :
    (400 ≤ 404 ∧
     (patient_routes.get_patient "u" (fun _ => TransportResult.ok ⟨404, "not found", none⟩)
        "d1" none).1 = GatewayResult.httpError 404 "not found") :=
  ⟨by decide,
   (C3_amended_backend_error_passthrough 404 "not found" "a" "u" "r" "id" "q" "d1" 5
     none none none (by decide)).2.2.2.2.2.2.2.2.2.2.2.1⟩


/-- C4 counterexample: on a patient-group route, a backend success
response whose body is not valid JSON is not wrapped in a fallback
object — `response.json()` raises and the gateway fails with a generic
internal error. -/
theorem C4_counterexample :
    patient_routes.get_patient "https://patientoncoassist.onrender.com"
        (fun _ => TransportResult.ok ⟨200, "hola", none⟩) "d1" none =
      (GatewayResult.internalError "json decode error",
       [⟨"GET", "https://patientoncoassist.onrender.com/patients/d1", [],
         none, []⟩]) := by
  rfl

/-- C4 (amended): when the backend responds with status 200 and a valid
JSON body `j`, only the two probe routes `GET /` and `GET /health` (no
declared response model) return `j` verbatim; `POST /register`
(`response_model=dict`) returns any JSON object verbatim; every other
route serialises `j` against its declared response model — returning the
model-filtered body (declaration order, defaults inserted, extra keys
dropped) when it conforms, and failing with the generic 500 of a
`ResponseValidationError` when it does not — and the delete routes
return an empty 204 without reading the body.  When the 200 body is not
valid JSON, the auth-group routes build the fallback object
`{"message": <raw text>}`, which reaches the caller only on `/register`
(on the other auth routes it fails the response model, giving a 500),
while the patient-group and recommendation-group routes fail with a
generic 500 from `response.json()` (the delete routes still return
204).  The final conjuncts evaluate the filtering concretely: a login
body with an extra key is relayed filtered with the `token_type`
default inserted, and non-conforming bodies on `GET /me` and the
predict route yield the 500. -/
theorem C4_amended_success_relay (j : Json) (txt : String)
    (authUrl patientUrl recUrl user_id q di : String) (hid : Int) :
    (auth_routes.register authUrl (fun _ => TransportResult.ok ⟨200, txt, some j⟩)
        ⟨[], [], some (Json.obj [("email", Json.str "a@b.c"), ("password", Json.str "x"),
          ("nombres", Json.str "n"), ("apellidos", Json.str "a"),
          ("tipo_doc", Json.str "CC"), ("doc", Json.str "1"),
          ("especialidades", Json.str "onco")])⟩).1 =
      modelFilter 201 respDict j ∧
    (auth_routes.login authUrl (fun _ => TransportResult.ok ⟨200, txt, some j⟩)
        ⟨[], [], some (Json.obj [("email", Json.str "a@b.c"),
          ("password", Json.str "x")])⟩).1 =
      modelFilter 200 auth_routes.TokenOut.serialize j ∧
    (auth_routes.get_me authUrl (fun _ => TransportResult.ok ⟨200, txt, some j⟩)
        ⟨[], [], none⟩ (some "t")).1 =
      modelFilter 200 auth_routes.UserOut.serialize j ∧
    (auth_routes.list_users authUrl (fun _ => TransportResult.ok ⟨200, txt, some j⟩)
        ⟨[], [], none⟩ (some "t")).1 =
      modelFilter 200 (listSerialize auth_routes.UserOut.serialize) j ∧
    (auth_routes.list_medicos authUrl (fun _ => TransportResult.ok ⟨200, txt, some j⟩)
        ⟨[], [], none⟩ (some "t")).1 =
      modelFilter 200 (listSerialize auth_routes.MedicoOut.serialize) j ∧
    (auth_routes.get_user_medico authUrl (fun _ => TransportResult.ok ⟨200, txt, some j⟩)
        user_id ⟨[], [], none⟩ (some "t")).1 =
      modelFilter 200 auth_routes.UserMedicoUpdateOut.serialize j ∧
    (auth_routes.update_user_medico authUrl (fun _ => TransportResult.ok ⟨200, txt, some j⟩)
        user_id ⟨[], [], some (Json.obj [("email", Json.str "a@b.c")])⟩ (some "t")).1 =
      modelFilter 200 auth_routes.UserMedicoUpdateOut.serialize j ∧
    (auth_routes.search_user_medico authUrl (fun _ => TransportResult.ok ⟨200, txt, some j⟩)
        ⟨[], [], none⟩ none none none (some "t")).1 =
      modelFilter 200 auth_routes.SearchResult.serialize j ∧
    (auth_routes.search_flexible authUrl (fun _ => TransportResult.ok ⟨200, txt, some j⟩)
        ⟨[], [], none⟩ q (some "t")).1 =
      modelFilter 200 (listSerialize auth_routes.SearchResult.serialize) j ∧
    (patient_routes.list_patients patientUrl (fun _ => TransportResult.ok ⟨200, txt, some j⟩)
        none none none).1 =
      modelFilter 200 (listSerialize patient_routes.PatientRead.serialize) j ∧
    (patient_routes.create_patient patientUrl (fun _ => TransportResult.ok ⟨200, txt, some j⟩)
        ⟨"d1", "n", 30, "F", none, none, none, "a@b.c", none, none⟩ none).1 =
      modelFilter 201 patient_routes.PatientRead.serialize j ∧
    (patient_routes.get_patient patientUrl (fun _ => TransportResult.ok ⟨200, txt, some j⟩)
        di none).1 = modelFilter 200 patient_routes.PatientRead.serialize j ∧
    (patient_routes.update_patient patientUrl (fun _ => TransportResult.ok ⟨200, txt, some j⟩)
        di ⟨none, none, none, none, none, none, none, none, none, []⟩ none).1 =
      modelFilter 200 patient_routes.PatientRead.serialize j ∧
    (patient_routes.delete_patient patientUrl (fun _ => TransportResult.ok ⟨200, txt, some j⟩)
        di none).1 = GatewayResult.noContent ∧
    (patient_routes.create_clinical_history patientUrl
        (fun _ => TransportResult.ok ⟨200, txt, some j⟩)
        ⟨"d1", "s", "t", "a", "f"⟩ none).1 =
      modelFilter 201 patient_routes.ClinicalHistoryRead.serialize j ∧
    (patient_routes.get_clinical_history patientUrl
        (fun _ => TransportResult.ok ⟨200, txt, some j⟩) hid none).1 =
      modelFilter 200 patient_routes.ClinicalHistoryRead.serialize j ∧
    (patient_routes.update_clinical_history patientUrl
        (fun _ => TransportResult.ok ⟨200, txt, some j⟩) hid
        ⟨none, none, none, none, []⟩ none).1 =
      modelFilter 200 patient_routes.ClinicalHistoryRead.serialize j ∧
    (patient_routes.delete_clinical_history patientUrl
        (fun _ => TransportResult.ok ⟨200, txt, some j⟩) hid none).1 =
      GatewayResult.noContent ∧
    (patient_routes.get_histories_by_document patientUrl
        (fun _ => TransportResult.ok ⟨200, txt, some j⟩) di none).1 =
      modelFilter 200 (listSerialize patient_routes.ClinicalHistoryRead.serialize) j ∧
    (recommendation_routes.root recUrl (fun _ => TransportResult.ok ⟨200, txt, some j⟩)).1 =
      GatewayResult.ok 200 j ∧
    (recommendation_routes.health_check recUrl
        (fun _ => TransportResult.ok ⟨200, txt, some j⟩)).1 = GatewayResult.ok 200 j ∧
    (recommendation_routes.predict_and_update_treatment recUrl
        (fun _ => TransportResult.ok ⟨200, txt, some j⟩) ⟨7⟩ (some "t")).1 =
      modelFilter 200 recommendation_routes.TreatmentResponse.serialize j ∧
    (auth_routes.register authUrl (fun _ => TransportResult.ok ⟨200, txt, none⟩)
        ⟨[], [], some (Json.obj [("email", Json.str "a@b.c"), ("password", Json.str "x"),
          ("nombres", Json.str "n"), ("apellidos", Json.str "a"),
          ("tipo_doc", Json.str "CC"), ("doc", Json.str "1"),
          ("especialidades", Json.str "onco")])⟩).1 =
      GatewayResult.ok 201 (Json.obj [("message", Json.str txt)]) ∧
    (auth_routes.login authUrl (fun _ => TransportResult.ok ⟨200, txt, none⟩)
        ⟨[], [], some (Json.obj [("email", Json.str "a@b.c"),
          ("password", Json.str "x")])⟩).1 =
      GatewayResult.internalError "ResponseValidationError" ∧
    (auth_routes.get_me authUrl (fun _ => TransportResult.ok ⟨200, txt, none⟩)
        ⟨[], [], none⟩ (some "t")).1 =
      GatewayResult.internalError "ResponseValidationError" ∧
    (auth_routes.list_users authUrl (fun _ => TransportResult.ok ⟨200, txt, none⟩)
        ⟨[], [], none⟩ (some "t")).1 =
      GatewayResult.internalError "ResponseValidationError" ∧
    (auth_routes.list_medicos authUrl (fun _ => TransportResult.ok ⟨200, txt, none⟩)
        ⟨[], [], none⟩ (some "t")).1 =
      GatewayResult.internalError "ResponseValidationError" ∧
    (auth_routes.get_user_medico authUrl (fun _ => TransportResult.ok ⟨200, txt, none⟩)
        user_id ⟨[], [], none⟩ (some "t")).1 =
      GatewayResult.internalError "ResponseValidationError" ∧
    (auth_routes.update_user_medico authUrl (fun _ => TransportResult.ok ⟨200, txt, none⟩)
        user_id ⟨[], [], some (Json.obj [("email", Json.str "a@b.c")])⟩ (some "t")).1 =
      GatewayResult.internalError "ResponseValidationError" ∧
    (auth_routes.search_user_medico authUrl (fun _ => TransportResult.ok ⟨200, txt, none⟩)
        ⟨[], [], none⟩ none none none (some "t")).1 =
      GatewayResult.internalError "ResponseValidationError" ∧
    (auth_routes.search_flexible authUrl (fun _ => TransportResult.ok ⟨200, txt, none⟩)
        ⟨[], [], none⟩ q (some "t")).1 =
      GatewayResult.internalError "ResponseValidationError" ∧
    (patient_routes.list_patients patientUrl (fun _ => TransportResult.ok ⟨200, txt, none⟩)
        none none none).1 = GatewayResult.internalError "json decode error" ∧
    (patient_routes.create_patient patientUrl (fun _ => TransportResult.ok ⟨200, txt, none⟩)
        ⟨"d1", "n", 30, "F", none, none, none, "a@b.c", none, none⟩ none).1 =
      GatewayResult.internalError "json decode error" ∧
    (patient_routes.get_patient patientUrl (fun _ => TransportResult.ok ⟨200, txt, none⟩)
        di none).1 = GatewayResult.internalError "json decode error" ∧
    (patient_routes.update_patient patientUrl (fun _ => TransportResult.ok ⟨200, txt, none⟩)
        di ⟨none, none, none, none, none, none, none, none, none, []⟩ none).1 =
      GatewayResult.internalError "json decode error" ∧
    (patient_routes.delete_patient patientUrl (fun _ => TransportResult.ok ⟨200, txt, none⟩)
        di none).1 = GatewayResult.noContent ∧
    (patient_routes.create_clinical_history patientUrl
        (fun _ => TransportResult.ok ⟨200, txt, none⟩)
        ⟨"d1", "s", "t", "a", "f"⟩ none).1 =
      GatewayResult.internalError "json decode error" ∧
    (patient_routes.get_clinical_history patientUrl
        (fun _ => TransportResult.ok ⟨200, txt, none⟩) hid none).1 =
      GatewayResult.internalError "json decode error" ∧
    (patient_routes.update_clinical_history patientUrl
        (fun _ => TransportResult.ok ⟨200, txt, none⟩) hid
        ⟨none, none, none, none, []⟩ none).1 =
      GatewayResult.internalError "json decode error" ∧
    (patient_routes.delete_clinical_history patientUrl
        (fun _ => TransportResult.ok ⟨200, txt, none⟩) hid none).1 =
      GatewayResult.noContent ∧
    (patient_routes.get_histories_by_document patientUrl
        (fun _ => TransportResult.ok ⟨200, txt, none⟩) di none).1 =
      GatewayResult.internalError "json decode error" ∧
    (recommendation_routes.root recUrl (fun _ => TransportResult.ok ⟨200, txt, none⟩)).1 =
      GatewayResult.internalError "json decode error" ∧
    (recommendation_routes.health_check recUrl
        (fun _ => TransportResult.ok ⟨200, txt, none⟩)).1 =
      GatewayResult.internalError "json decode error" ∧
    (recommendation_routes.predict_and_update_treatment recUrl
        (fun _ => TransportResult.ok ⟨200, txt, none⟩) ⟨7⟩ (some "t")).1 =
      GatewayResult.internalError "json decode error" ∧
    (auth_routes.login authUrl (fun _ => TransportResult.ok ⟨200, txt,
        some (Json.obj [("access_token", Json.str "abc"), ("extra", Json.num 1)])⟩)
        ⟨[], [], some (Json.obj [("email", Json.str "a@b.c"),
          ("password", Json.str "x")])⟩).1 =
      GatewayResult.ok 200 (Json.obj [("access_token", Json.str "abc"),
        ("token_type", Json.str "bearer")]) ∧
    (auth_routes.get_me authUrl (fun _ => TransportResult.ok ⟨200, txt,
        some (Json.obj [("x", Json.num 1)])⟩) ⟨[], [], none⟩ (some "t")).1 =
      GatewayResult.internalError "ResponseValidationError" ∧
    (recommendation_routes.predict_and_update_treatment recUrl
        (fun _ => TransportResult.ok ⟨200, txt,
          some (Json.obj [("success", Json.bool true)])⟩) ⟨7⟩ (some "t")).1 =
      GatewayResult.internalError "ResponseValidationError" :=
  ⟨rfl, rfl, rfl, rfl, rfl, rfl, rfl, rfl, rfl, rfl, rfl, rfl, rfl, rfl, rfl,
   rfl, rfl, rfl, rfl, rfl, rfl, rfl, rfl, rfl, rfl, rfl, rfl, rfl, rfl, rfl,
   rfl, rfl, rfl, rfl, rfl, rfl, rfl, rfl, rfl, rfl, rfl, rfl, rfl, rfl, rfl,
   rfl, rfl⟩

/-- C6: the claim is right and the code is wrong.  `POST /register`
with a JSON body that does not conform to `RegisterIn` (here the empty
object, missing all seven required fields) does not produce the
documented 422 validation response: the handler parses the body itself
(`RegisterIn(**body)`), so Pydantic's `ValidationError` is raised
outside FastAPI's request-validation machinery, is not converted by the
`RequestValidationError` handler, and surfaces as a generic 500.  No
outbound call is issued. -/
theorem C6_register_500_on_nonconforming_body :
    auth_routes.register "https://oncoapp-239j.onrender.com"
        (fun _ => TransportResult.ok ⟨200, "ok", some (Json.obj [])⟩)
        ⟨[], [], some (Json.obj [])⟩ =
      (GatewayResult.internalError "pydantic ValidationError", []) := by
  rfl

/-- C7 counterexample: the inbound route `GET /patients/` (decorator
path with trailing slash) issues its outbound call to
`<base>/patients` — the base URL concatenated with a path that is NOT
the identical endpoint path. -/
theorem C7_counterexample :
    (patient_routes.list_patients "U" (fun _ => TransportResult.ok ⟨200, "[]",
        some (Json.arr [])⟩) none none none).2 =
      [⟨"GET", "U/patients", [], none, []⟩] ∧
    inbound_list_patients.path = "/patients/" ∧
    "U" ++ inbound_list_patients.path ≠ "U/patients" := by
  exact ⟨rfl, rfl, by decide⟩

/-- C7 (amended): every route issues its outbound call with the same
verb as its decorator, and with URL equal to the configured base URL
concatenated with the decorator's path — except the three collection
routes `GET /patients/`, `POST /patients/` and
`POST /clinical_histories/`, whose outbound path drops the decorator's
trailing slash. -/
theorem C7_amended_verb_path_preserved (authUrl patientUrl recUrl user_id q di tok : String)
    (hid : Int) (backend : Backend) :
    ((auth_routes.register authUrl backend
        ⟨[], [], some (Json.obj [("email", Json.str "a@b.c"), ("password", Json.str "x"),
          ("nombres", Json.str "n"), ("apellidos", Json.str "a"),
          ("tipo_doc", Json.str "CC"), ("doc", Json.str "1"),
          ("especialidades", Json.str "onco")])⟩).2.map OutboundRequest.method =
        [inbound_register.method] ∧
     (auth_routes.register authUrl backend
        ⟨[], [], some (Json.obj [("email", Json.str "a@b.c"), ("password", Json.str "x"),
          ("nombres", Json.str "n"), ("apellidos", Json.str "a"),
          ("tipo_doc", Json.str "CC"), ("doc", Json.str "1"),
          ("especialidades", Json.str "onco")])⟩).2.map OutboundRequest.url =
        [authUrl ++ inbound_register.path]) ∧
    ((auth_routes.login authUrl backend
        ⟨[], [], some (Json.obj [("email", Json.str "a@b.c"),
          ("password", Json.str "x")])⟩).2.map OutboundRequest.method =
        [inbound_login.method] ∧
     (auth_routes.login authUrl backend
        ⟨[], [], some (Json.obj [("email", Json.str "a@b.c"),
          ("password", Json.str "x")])⟩).2.map OutboundRequest.url =
        [authUrl ++ inbound_login.path]) ∧
    ((auth_routes.get_me authUrl backend ⟨[], [], none⟩ (some tok)).2.map
        OutboundRequest.method = [inbound_get_me.method] ∧
     (auth_routes.get_me authUrl backend ⟨[], [], none⟩ (some tok)).2.map
        OutboundRequest.url = [authUrl ++ inbound_get_me.path]) ∧
    ((auth_routes.list_users authUrl backend ⟨[], [], none⟩ (some tok)).2.map
        OutboundRequest.method = [inbound_list_users.method] ∧
     (auth_routes.list_users authUrl backend ⟨[], [], none⟩ (some tok)).2.map
        OutboundRequest.url = [authUrl ++ inbound_list_users.path]) ∧
    ((auth_routes.list_medicos authUrl backend ⟨[], [], none⟩ (some tok)).2.map
        OutboundRequest.method = [inbound_list_medicos.method] ∧
     (auth_routes.list_medicos authUrl backend ⟨[], [], none⟩ (some tok)).2.map
        OutboundRequest.url = [authUrl ++ inbound_list_medicos.path]) ∧
    ((auth_routes.get_user_medico authUrl backend user_id ⟨[], [], none⟩ (some tok)).2.map
        OutboundRequest.method = [(inbound_get_user_medico user_id).method] ∧
     (auth_routes.get_user_medico authUrl backend user_id ⟨[], [], none⟩ (some tok)).2.map
        OutboundRequest.url = [authUrl ++ (inbound_get_user_medico user_id).path]) ∧
    ((auth_routes.update_user_medico authUrl backend user_id
        ⟨[], [], some (Json.obj [("email", Json.str "a@b.c")])⟩ (some tok)).2.map
        OutboundRequest.method = [(inbound_update_user_medico user_id).method] ∧
     (auth_routes.update_user_medico authUrl backend user_id
        ⟨[], [], some (Json.obj [("email", Json.str "a@b.c")])⟩ (some tok)).2.map
        OutboundRequest.url = [authUrl ++ (inbound_update_user_medico user_id).path]) ∧
    ((auth_routes.search_user_medico authUrl backend ⟨[], [], none⟩ none none none
        (some tok)).2.map OutboundRequest.method = [inbound_search.method] ∧
     (auth_routes.search_user_medico authUrl backend ⟨[], [], none⟩ none none none
        (some tok)).2.map OutboundRequest.url = [authUrl ++ inbound_search.path]) ∧
    ((auth_routes.search_flexible authUrl backend ⟨[], [], none⟩ q (some tok)).2.map
        OutboundRequest.method = [inbound_search_flexible.method] ∧
     (auth_routes.search_flexible authUrl backend ⟨[], [], none⟩ q (some tok)).2.map
        OutboundRequest.url = [authUrl ++ inbound_search_flexible.path]) ∧
    ((patient_routes.list_patients patientUrl backend none none none).2.map
        OutboundRequest.method = [inbound_list_patients.method] ∧
     (patient_routes.list_patients patientUrl backend none none none).2.map
        OutboundRequest.url = [patientUrl ++ "/patients"] ∧
     inbound_list_patients.path = "/patients/") ∧
    ((patient_routes.create_patient patientUrl backend
        ⟨"d1", "n", 30, "F", none, none, none, "a@b.c", none, none⟩ none).2.map
        OutboundRequest.method = [inbound_create_patient.method] ∧
     (patient_routes.create_patient patientUrl backend
        ⟨"d1", "n", 30, "F", none, none, none, "a@b.c", none, none⟩ none).2.map
        OutboundRequest.url = [patientUrl ++ "/patients"] ∧
     inbound_create_patient.path = "/patients/") ∧
    ((patient_routes.get_patient patientUrl backend di none).2.map
        OutboundRequest.method = [(inbound_get_patient di).method] ∧
     (patient_routes.get_patient patientUrl backend di none).2.map
        OutboundRequest.url = [patientUrl ++ (inbound_get_patient di).path]) ∧
    ((patient_routes.update_patient patientUrl backend di
        ⟨none, none, none, none, none, none, none, none, none, []⟩ none).2.map
        OutboundRequest.method = [(inbound_update_patient di).method] ∧
     (patient_routes.update_patient patientUrl backend di
        ⟨none, none, none, none, none, none, none, none, none, []⟩ none).2.map
        OutboundRequest.url = [patientUrl ++ (inbound_update_patient di).path]) ∧
    ((patient_routes.delete_patient patientUrl backend di none).2.map
        OutboundRequest.method = [(inbound_delete_patient di).method] ∧
     (patient_routes.delete_patient patientUrl backend di none).2.map
        OutboundRequest.url = [patientUrl ++ (inbound_delete_patient di).path]) ∧
    ((patient_routes.create_clinical_history patientUrl backend
        ⟨"d1", "s", "t", "a", "f"⟩ none).2.map OutboundRequest.method =
        [inbound_create_clinical_history.method] ∧
     (patient_routes.create_clinical_history patientUrl backend
        ⟨"d1", "s", "t", "a", "f"⟩ none).2.map OutboundRequest.url =
        [patientUrl ++ "/clinical_histories"] ∧
     inbound_create_clinical_history.path = "/clinical_histories/") ∧
    ((patient_routes.get_clinical_history patientUrl backend hid none).2.map
        OutboundRequest.method = [(inbound_get_clinical_history hid).method] ∧
     (patient_routes.get_clinical_history patientUrl backend hid none).2.map
        OutboundRequest.url = [patientUrl ++ (inbound_get_clinical_history hid).path]) ∧
    ((patient_routes.update_clinical_history patientUrl backend hid
        ⟨none, none, none, none, []⟩ none).2.map OutboundRequest.method =
        [(inbound_update_clinical_history hid).method] ∧
     (patient_routes.update_clinical_history patientUrl backend hid
        ⟨none, none, none, none, []⟩ none).2.map OutboundRequest.url =
        [patientUrl ++ (inbound_update_clinical_history hid).path]) ∧
    ((patient_routes.delete_clinical_history patientUrl backend hid none).2.map
        OutboundRequest.method = [(inbound_delete_clinical_history hid).method] ∧
     (patient_routes.delete_clinical_history patientUrl backend hid none).2.map
        OutboundRequest.url = [patientUrl ++ (inbound_delete_clinical_history hid).path]) ∧
    ((patient_routes.get_histories_by_document patientUrl backend di none).2.map
        OutboundRequest.method = [(inbound_get_histories_by_document di).method] ∧
     (patient_routes.get_histories_by_document patientUrl backend di none).2.map
        OutboundRequest.url = [patientUrl ++ (inbound_get_histories_by_document di).path]) ∧
    ((recommendation_routes.root recUrl backend).2.map OutboundRequest.method =
        [inbound_rec_root.method] ∧
     (recommendation_routes.root recUrl backend).2.map OutboundRequest.url =
        [recUrl ++ inbound_rec_root.path]) ∧
    ((recommendation_routes.health_check recUrl backend).2.map OutboundRequest.method =
        [inbound_health.method] ∧
     (recommendation_routes.health_check recUrl backend).2.map OutboundRequest.url =
        [recUrl ++ inbound_health.path]) ∧
    ((recommendation_routes.predict_and_update_treatment recUrl backend ⟨7⟩
        (some tok)).2.map OutboundRequest.method = [inbound_predict.method] ∧
     (recommendation_routes.predict_and_update_treatment recUrl backend ⟨7⟩
        (some tok)).2.map OutboundRequest.url = [recUrl ++ inbound_predict.path]) := by
  refine ⟨⟨rfl, rfl⟩, ⟨rfl, rfl⟩, ⟨rfl, rfl⟩, ⟨rfl, rfl⟩, ⟨rfl, rfl⟩, ⟨rfl, rfl⟩,
    ⟨rfl, rfl⟩, ⟨rfl, rfl⟩, ⟨rfl, rfl⟩, ⟨rfl, rfl, rfl⟩, ⟨rfl, rfl, rfl⟩,
    ⟨rfl, ?_⟩, ⟨rfl, ?_⟩, ⟨rfl, ?_⟩, ⟨rfl, rfl, rfl⟩, ⟨rfl, ?_⟩, ⟨rfl, ?_⟩,
    ⟨rfl, ?_⟩, ⟨rfl, ?_⟩, ⟨rfl, rfl⟩, ⟨rfl, rfl⟩, ⟨rfl, rfl⟩⟩
  · rw [show patientUrl ++ (inbound_get_patient di).path =
      patientUrl ++ "/patients/" ++ di from (str_append_assoc _ _ _).symm]
    rfl
  · rw [show patientUrl ++ (inbound_update_patient di).path =
      patientUrl ++ "/patients/" ++ di from (str_append_assoc _ _ _).symm]
    rfl
  · rw [show patientUrl ++ (inbound_delete_patient di).path =
      patientUrl ++ "/patients/" ++ di from (str_append_assoc _ _ _).symm]
    rfl
  · rw [show patientUrl ++ (inbound_get_clinical_history hid).path =
      patientUrl ++ "/clinical_histories/" ++ toString hid from
      (str_append_assoc _ _ _).symm]
    rfl
  · rw [show patientUrl ++ (inbound_update_clinical_history hid).path =
      patientUrl ++ "/clinical_histories/" ++ toString hid from
      (str_append_assoc _ _ _).symm]
    rfl
  · rw [show patientUrl ++ (inbound_delete_clinical_history hid).path =
      patientUrl ++ "/clinical_histories/" ++ toString hid from
      (str_append_assoc _ _ _).symm]
    rfl
  · rw [show patientUrl ++ (inbound_get_histories_by_document di).path =
      patientUrl ++ "/clinical_histories/document/" ++ di from
      (str_append_assoc _ _ _).symm]
    rfl


/-- C9: for every patient and clinical-history route invoked without a
bearer token, the gateway does not reject with its own 401: the request
is still forwarded to the patient backend as a single outbound call
whose header set is empty (no Authorization header and no inbound header
copied), and the only way the caller sees a 401 is the backend itself
answering 401 (stated here for any backend status other than 401: the
outcome never carries status 401). -/
theorem C9_no_token_forwards_with_empty_headers (patientUrl di txt : String)
    (hid : Int) (st : Nat) (jb : Option Json) (h : st ≠ 401) :
    ((patient_routes.list_patients patientUrl
        (fun _ => TransportResult.ok ⟨st, txt, jb⟩) none none none).2 =
      [⟨"GET", patientUrl ++ "/patients", [], none, []⟩] ∧
     (patient_routes.list_patients patientUrl
        (fun _ => TransportResult.ok ⟨st, txt, jb⟩) none none none).1.is401 = false) ∧
    ((patient_routes.create_patient patientUrl
        (fun _ => TransportResult.ok ⟨st, txt, jb⟩)
        ⟨"d1", "n", 30, "F", none, none, none, "a@b.c", none, none⟩ none).2 =
      [⟨"POST", patientUrl ++ "/patients", [],
        some (patient_routes.PatientCreate.toDict
          ⟨"d1", "n", 30, "F", none, none, none, "a@b.c", none, none⟩), []⟩] ∧
     (patient_routes.create_patient patientUrl
        (fun _ => TransportResult.ok ⟨st, txt, jb⟩)
        ⟨"d1", "n", 30, "F", none, none, none, "a@b.c", none, none⟩ none).1.is401 =
       false) ∧
    ((patient_routes.get_patient patientUrl
        (fun _ => TransportResult.ok ⟨st, txt, jb⟩) di none).2 =
      [⟨"GET", patientUrl ++ "/patients/" ++ di, [], none, []⟩] ∧
     (patient_routes.get_patient patientUrl
        (fun _ => TransportResult.ok ⟨st, txt, jb⟩) di none).1.is401 = false) ∧
    ((patient_routes.update_patient patientUrl
        (fun _ => TransportResult.ok ⟨st, txt, jb⟩) di
        ⟨none, none, none, none, none, none, none, none, none, []⟩ none).2 =
      [⟨"PATCH", patientUrl ++ "/patients/" ++ di, [], some (Json.obj []), []⟩] ∧
     (patient_routes.update_patient patientUrl
        (fun _ => TransportResult.ok ⟨st, txt, jb⟩) di
        ⟨none, none, none, none, none, none, none, none, none, []⟩ none).1.is401 =
       false) ∧
    ((patient_routes.delete_patient patientUrl
        (fun _ => TransportResult.ok ⟨st, txt, jb⟩) di none).2 =
      [⟨"DELETE", patientUrl ++ "/patients/" ++ di, [], none, []⟩] ∧
     (patient_routes.delete_patient patientUrl
        (fun _ => TransportResult.ok ⟨st, txt, jb⟩) di none).1.is401 = false) ∧
    ((patient_routes.create_clinical_history patientUrl
        (fun _ => TransportResult.ok ⟨st, txt, jb⟩) ⟨"d1", "s", "t", "a", "f"⟩ none).2 =
      [⟨"POST", patientUrl ++ "/clinical_histories", [],
        some (patient_routes.ClinicalHistoryCreate.toDict
          ⟨"d1", "s", "t", "a", "f"⟩), []⟩] ∧
     (patient_routes.create_clinical_history patientUrl
        (fun _ => TransportResult.ok ⟨st, txt, jb⟩)
        ⟨"d1", "s", "t", "a", "f"⟩ none).1.is401 = false) ∧
    ((patient_routes.get_clinical_history patientUrl
        (fun _ => TransportResult.ok ⟨st, txt, jb⟩) hid none).2 =
      [⟨"GET", patientUrl ++ "/clinical_histories/" ++ toString hid, [], none, []⟩] ∧
     (patient_routes.get_clinical_history patientUrl
        (fun _ => TransportResult.ok ⟨st, txt, jb⟩) hid none).1.is401 = false) ∧
    ((patient_routes.update_clinical_history patientUrl
        (fun _ => TransportResult.ok ⟨st, txt, jb⟩) hid
        ⟨none, none, none, none, []⟩ none).2 =
      [⟨"PATCH", patientUrl ++ "/clinical_histories/" ++ toString hid, [],
        some (Json.obj []), []⟩] ∧
     (patient_routes.update_clinical_history patientUrl
        (fun _ => TransportResult.ok ⟨st, txt, jb⟩) hid
        ⟨none, none, none, none, []⟩ none).1.is401 = false) ∧
    ((patient_routes.delete_clinical_history patientUrl
        (fun _ => TransportResult.ok ⟨st, txt, jb⟩) hid none).2 =
      [⟨"DELETE", patientUrl ++ "/clinical_histories/" ++ toString hid, [], none, []⟩] ∧
     (patient_routes.delete_clinical_history patientUrl
        (fun _ => TransportResult.ok ⟨st, txt, jb⟩) hid none).1.is401 = false) ∧
    ((patient_routes.get_histories_by_document patientUrl
        (fun _ => TransportResult.ok ⟨st, txt, jb⟩) di none).2 =
      [⟨"GET", patientUrl ++ "/clinical_histories/document/" ++ di, [], none, []⟩] ∧
     (patient_routes.get_histories_by_document patientUrl
        (fun _ => TransportResult.ok ⟨st, txt, jb⟩) di none).1.is401 = false) := by
  refine ⟨⟨rfl, ?_⟩, ⟨rfl, ?_⟩, ⟨rfl, ?_⟩, ⟨rfl, ?_⟩, ⟨rfl, ?_⟩, ⟨rfl, ?_⟩,
    ⟨rfl, ?_⟩, ⟨rfl, ?_⟩, ⟨rfl, ?_⟩, ⟨rfl, ?_⟩⟩
  · exact patient_routes.relay200_not401 st
      (listSerialize patient_routes.PatientRead.serialize) txt jb
      ⟨"GET", patientUrl ++ "/patients", [], none, []⟩ h
  · exact patient_routes.relay201_not401 st
      patient_routes.PatientRead.serialize txt jb
      ⟨"POST", patientUrl ++ "/patients", [],
        some (patient_routes.PatientCreate.toDict
          ⟨"d1", "n", 30, "F", none, none, none, "a@b.c", none, none⟩), []⟩ h
  · exact patient_routes.relay200_not401 st
      patient_routes.PatientRead.serialize txt jb
      ⟨"GET", patientUrl ++ "/patients/" ++ di, [], none, []⟩ h
  · exact patient_routes.relay200_not401 st
      patient_routes.PatientRead.serialize txt jb
      ⟨"PATCH", patientUrl ++ "/patients/" ++ di, [],
        some (Json.obj (patient_routes.PatientUpdate.dictExcludeUnset
          ⟨none, none, none, none, none, none, none, none, none, []⟩)), []⟩ h
  · exact patient_routes.relay204_not401 st txt jb
      ⟨"DELETE", patientUrl ++ "/patients/" ++ di, [], none, []⟩ h
  · exact patient_routes.relay201_not401 st
      patient_routes.ClinicalHistoryRead.serialize txt jb
      ⟨"POST", patientUrl ++ "/clinical_histories", [],
        some (patient_routes.ClinicalHistoryCreate.toDict
          ⟨"d1", "s", "t", "a", "f"⟩), []⟩ h
  · exact patient_routes.relay200_not401 st
      patient_routes.ClinicalHistoryRead.serialize txt jb
      ⟨"GET", patientUrl ++ "/clinical_histories/" ++ toString hid, [], none, []⟩ h
  · exact patient_routes.relay200_not401 st
      patient_routes.ClinicalHistoryRead.serialize txt jb
      ⟨"PATCH", patientUrl ++ "/clinical_histories/" ++ toString hid, [],
        some (Json.obj (patient_routes.ClinicalHistoryUpdate.dictExcludeUnset
          ⟨none, none, none, none, []⟩)), []⟩ h
  · exact patient_routes.relay204_not401 st txt jb
      ⟨"DELETE", patientUrl ++ "/clinical_histories/" ++ toString hid, [], none, []⟩ h
  · exact patient_routes.relay200_not401 st
      (listSerialize patient_routes.ClinicalHistoryRead.serialize) txt jb
      ⟨"GET", patientUrl ++ "/clinical_histories/document/" ++ di, [], none, []⟩ h

/-- Witness for C9 at backend status 404. -/
theorem C9_witness :
    (404 : Nat) ≠ 401 ∧
    ((patient_routes.get_patient "u" (fun _ => TransportResult.ok ⟨404, "nf", none⟩)
        "d1" none).2 = [⟨"GET", "u/patients/d1", [], none, []⟩] ∧
     (patient_routes.get_patient "u" (fun _ => TransportResult.ok ⟨404, "nf", none⟩)
        "d1" none).1.is401 = false) :=
  ⟨by decide,
   (C9_no_token_forwards_with_empty_headers "u" "d1" "nf" 5 404 none
     (by decide)).2.2.1⟩


/-- C10: for the PATCH routes on `/patients/{document_id}` and
`/clinical_histories/{history_id}`, the forwarded JSON body contains
exactly the schema fields explicitly present in the inbound request
body: each schema field is looked up in the outbound body with the very
value it had inbound (in particular an explicit null is forwarded as
null), every omitted field is absent from the outbound body, and the
outbound body carries no key outside the schema.  The inbound objects
are assumed duplicate-key-free, as Python dictionaries are. -/
theorem C10_patch_forwards_exactly_present_fields (patientUrl di tok : String)
    (hid : Int) (backend : Backend) (fs gs : List (String × Json))
    (m : patient_routes.PatientUpdate) (c : patient_routes.ClinicalHistoryUpdate)
    (hnodup : (fs.map Prod.fst).Nodup) (hnodup2 : (gs.map Prod.fst).Nodup)
    (hm : patient_routes.PatientUpdate.validate (Json.obj fs) = Except.ok m)
    (hc : patient_routes.ClinicalHistoryUpdate.validate (Json.obj gs) = Except.ok c) :
    (patient_routes.update_patient_route patientUrl backend di (some (Json.obj fs))
        (some tok)).2 =
      [⟨"PATCH", patientUrl ++ "/patients/" ++ di,
        [("authorization", "Bearer " ++ tok)],
        some (Json.obj m.dictExcludeUnset), []⟩] ∧
    List.lookup "name" m.dictExcludeUnset = jlookup fs "name" ∧
    List.lookup "age" m.dictExcludeUnset = jlookup fs "age" ∧
    List.lookup "gender" m.dictExcludeUnset = jlookup fs "gender" ∧
    List.lookup "race" m.dictExcludeUnset = jlookup fs "race" ∧
    List.lookup "region" m.dictExcludeUnset = jlookup fs "region" ∧
    List.lookup "urban_or_rural" m.dictExcludeUnset = jlookup fs "urban_or_rural" ∧
    List.lookup "email" m.dictExcludeUnset = jlookup fs "email" ∧
    List.lookup "phone" m.dictExcludeUnset = jlookup fs "phone" ∧
    List.lookup "address" m.dictExcludeUnset = jlookup fs "address" ∧
    m.dictExcludeUnset.all
      (fun p => patient_routes.patientUpdateFieldNames.contains p.1) = true ∧
    (patient_routes.update_clinical_history_route patientUrl backend hid
        (some (Json.obj gs)) (some tok)).2 =
      [⟨"PATCH", patientUrl ++ "/clinical_histories/" ++ toString hid,
        [("authorization", "Bearer " ++ tok)],
        some (Json.obj c.dictExcludeUnset), []⟩] ∧
    List.lookup "stage_at_diagnosis" c.dictExcludeUnset =
      jlookup gs "stage_at_diagnosis" ∧
    List.lookup "tumor_aggressiveness" c.dictExcludeUnset =
      jlookup gs "tumor_aggressiveness" ∧
    List.lookup "treatment_access" c.dictExcludeUnset =
      jlookup gs "treatment_access" ∧
    List.lookup "follow_up_adherence" c.dictExcludeUnset =
      jlookup gs "follow_up_adherence" ∧
    c.dictExcludeUnset.all
      (fun p => patient_routes.clinicalHistoryUpdateFieldNames.contains p.1) =
      true := by
  have hm0 := hm
  have hc0 := hc
  rcases hl1 : getOptStr fs "name" with e1 | ⟨v1, b1⟩
  · simp [patient_routes.PatientUpdate.validate, hl1] at hm
  rcases hl2 : getOptInt fs "age" with e2 | ⟨v2, b2⟩
  · simp [patient_routes.PatientUpdate.validate, hl1, hl2] at hm
  rcases hl3 : getOptStr fs "gender" with e3 | ⟨v3, b3⟩
  · simp [patient_routes.PatientUpdate.validate, hl1, hl2, hl3] at hm
  rcases hl4 : getOptStr fs "race" with e4 | ⟨v4, b4⟩
  · simp [patient_routes.PatientUpdate.validate, hl1, hl2, hl3, hl4] at hm
  rcases hl5 : getOptStr fs "region" with e5 | ⟨v5, b5⟩
  · simp [patient_routes.PatientUpdate.validate, hl1, hl2, hl3, hl4, hl5] at hm
  rcases hl6 : getOptStr fs "urban_or_rural" with e6 | ⟨v6, b6⟩
  · simp [patient_routes.PatientUpdate.validate, hl1, hl2, hl3, hl4, hl5, hl6] at hm
  rcases hl7 : getOptEmail fs "email" with e7 | ⟨v7, b7⟩
  · simp [patient_routes.PatientUpdate.validate, hl1, hl2, hl3, hl4, hl5, hl6,
      hl7] at hm
  rcases hl8 : getOptStr fs "phone" with e8 | ⟨v8, b8⟩
  · simp [patient_routes.PatientUpdate.validate, hl1, hl2, hl3, hl4, hl5, hl6,
      hl7, hl8] at hm
  rcases hl9 : getOptStr fs "address" with e9 | ⟨v9, b9⟩
  · simp [patient_routes.PatientUpdate.validate, hl1, hl2, hl3, hl4, hl5, hl6,
      hl7, hl8, hl9] at hm
  rcases hk1 : getOptStr gs "stage_at_diagnosis" with f1 | ⟨w1, a1⟩
  · simp [patient_routes.ClinicalHistoryUpdate.validate, hk1] at hc
  rcases hk2 : getOptStr gs "tumor_aggressiveness" with f2 | ⟨w2, a2⟩
  · simp [patient_routes.ClinicalHistoryUpdate.validate, hk1, hk2] at hc
  rcases hk3 : getOptStr gs "treatment_access" with f3 | ⟨w3, a3⟩
  · simp [patient_routes.ClinicalHistoryUpdate.validate, hk1, hk2, hk3] at hc
  rcases hk4 : getOptStr gs "follow_up_adherence" with f4 | ⟨w4, a4⟩
  · simp [patient_routes.ClinicalHistoryUpdate.validate, hk1, hk2, hk3, hk4] at hc
  simp only [patient_routes.PatientUpdate.validate, hl1, hl2, hl3, hl4, hl5, hl6,
    hl7, hl8, hl9, Except.ok.injEq] at hm
  simp only [patient_routes.ClinicalHistoryUpdate.validate, hk1, hk2, hk3, hk4,
    Except.ok.injEq] at hc
  subst hm
  subst hc
  have hn1 := getOptStr_ok fs "name" v1 b1 hl1
  have hn2 := getOptInt_ok fs "age" v2 b2 hl2
  have hn3 := getOptStr_ok fs "gender" v3 b3 hl3
  have hn4 := getOptStr_ok fs "race" v4 b4 hl4
  have hn5 := getOptStr_ok fs "region" v5 b5 hl5
  have hn6 := getOptStr_ok fs "urban_or_rural" v6 b6 hl6
  have hn7 := getOptEmail_ok fs "email" v7 b7 hl7
  have hn8 := getOptStr_ok fs "phone" v8 b8 hl8
  have hn9 := getOptStr_ok fs "address" v9 b9 hl9
  have hq1 := getOptStr_ok gs "stage_at_diagnosis" w1 a1 hk1
  have hq2 := getOptStr_ok gs "tumor_aggressiveness" w2 a2 hk2
  have hq3 := getOptStr_ok gs "treatment_access" w3 a3 hk3
  have hq4 := getOptStr_ok gs "follow_up_adherence" w4 a4 hk4
  refine ⟨?_, ?_, ?_, ?_, ?_, ?_, ?_, ?_, ?_, ?_, ?_, ?_, ?_, ?_, ?_, ?_, ?_⟩
  · simp only [patient_routes.update_patient_route, hm0]
    rfl
  · cases b1 <;>
      simp [patient_routes.PatientUpdate.dictExcludeUnset, patient_routes.patientUpdateFieldNames,
        lookup_cond_skip, lookup_cond_self, lookup_cond_skip1, lookup_cond_self1,
        contains_filter_cons, contains_filter_self, hn1]
  · cases b2 <;>
      simp [patient_routes.PatientUpdate.dictExcludeUnset, patient_routes.patientUpdateFieldNames,
        lookup_cond_skip, lookup_cond_self, lookup_cond_skip1, lookup_cond_self1,
        contains_filter_cons, contains_filter_self, hn2]
  · cases b3 <;>
      simp [patient_routes.PatientUpdate.dictExcludeUnset, patient_routes.patientUpdateFieldNames,
        lookup_cond_skip, lookup_cond_self, lookup_cond_skip1, lookup_cond_self1,
        contains_filter_cons, contains_filter_self, hn3]
  · cases b4 <;>
      simp [patient_routes.PatientUpdate.dictExcludeUnset, patient_routes.patientUpdateFieldNames,
        lookup_cond_skip, lookup_cond_self, lookup_cond_skip1, lookup_cond_self1,
        contains_filter_cons, contains_filter_self, hn4]
  · cases b5 <;>
      simp [patient_routes.PatientUpdate.dictExcludeUnset, patient_routes.patientUpdateFieldNames,
        lookup_cond_skip, lookup_cond_self, lookup_cond_skip1, lookup_cond_self1,
        contains_filter_cons, contains_filter_self, hn5]
  · cases b6 <;>
      simp [patient_routes.PatientUpdate.dictExcludeUnset, patient_routes.patientUpdateFieldNames,
        lookup_cond_skip, lookup_cond_self, lookup_cond_skip1, lookup_cond_self1,
        contains_filter_cons, contains_filter_self, hn6]
  · cases b7 <;>
      simp [patient_routes.PatientUpdate.dictExcludeUnset, patient_routes.patientUpdateFieldNames,
        lookup_cond_skip, lookup_cond_self, lookup_cond_skip1, lookup_cond_self1,
        contains_filter_cons, contains_filter_self, hn7]
  · cases b8 <;>
      simp [patient_routes.PatientUpdate.dictExcludeUnset, patient_routes.patientUpdateFieldNames,
        lookup_cond_skip, lookup_cond_self, lookup_cond_skip1, lookup_cond_self1,
        contains_filter_cons, contains_filter_self, hn8]
  · cases b9 <;>
      simp [patient_routes.PatientUpdate.dictExcludeUnset, patient_routes.patientUpdateFieldNames,
        lookup_cond_skip, lookup_cond_self, lookup_cond_skip1, lookup_cond_self1,
        contains_filter_cons, contains_filter_self, hn9]
  · simp [patient_routes.PatientUpdate.dictExcludeUnset, patient_routes.patientUpdateFieldNames,
      List.all_append, all_cond, List.contains_cons]
  · simp only [patient_routes.update_clinical_history_route, hc0]
    rfl
  · cases a1 <;>
      simp [patient_routes.ClinicalHistoryUpdate.dictExcludeUnset,
        patient_routes.clinicalHistoryUpdateFieldNames, lookup_cond_skip, lookup_cond_self,
        lookup_cond_skip1, lookup_cond_self1, contains_filter_cons,
        contains_filter_self, hq1]
  · cases a2 <;>
      simp [patient_routes.ClinicalHistoryUpdate.dictExcludeUnset,
        patient_routes.clinicalHistoryUpdateFieldNames, lookup_cond_skip, lookup_cond_self,
        lookup_cond_skip1, lookup_cond_self1, contains_filter_cons,
        contains_filter_self, hq2]
  · cases a3 <;>
      simp [patient_routes.ClinicalHistoryUpdate.dictExcludeUnset,
        patient_routes.clinicalHistoryUpdateFieldNames, lookup_cond_skip, lookup_cond_self,
        lookup_cond_skip1, lookup_cond_self1, contains_filter_cons,
        contains_filter_self, hq3]
  · cases a4 <;>
      simp [patient_routes.ClinicalHistoryUpdate.dictExcludeUnset,
        patient_routes.clinicalHistoryUpdateFieldNames, lookup_cond_skip, lookup_cond_self,
        lookup_cond_skip1, lookup_cond_self1, contains_filter_cons,
        contains_filter_self, hq4]
  · simp [patient_routes.ClinicalHistoryUpdate.dictExcludeUnset,
      patient_routes.clinicalHistoryUpdateFieldNames, List.all_append, all_cond, List.contains_cons]


/-- Witness for C10: a patient PATCH body setting `name` and explicitly
nulling `age` forwards exactly those two fields (null preserved) and
omits `gender`. -/
theorem C10_witness :
    ((List.map Prod.fst [("name", Json.str "Ana"), ("age", Json.null)]).Nodup ∧
     (List.map Prod.fst [("treatment_access", Json.str "high")]).Nodup ∧
     patient_routes.PatientUpdate.validate
        (Json.obj [("name", Json.str "Ana"), ("age", Json.null)]) =
       Except.ok ⟨some "Ana", none, none, none, none, none, none, none, none,
         ["name", "age"]⟩ ∧
     patient_routes.ClinicalHistoryUpdate.validate
        (Json.obj [("treatment_access", Json.str "high")]) =
       Except.ok ⟨none, none, some "high", none, ["treatment_access"]⟩) ∧
    List.lookup "age" (patient_routes.PatientUpdate.dictExcludeUnset
      ⟨some "Ana", none, none, none, none, none, none, none, none,
        ["name", "age"]⟩) = some Json.null ∧
    List.lookup "gender" (patient_routes.PatientUpdate.dictExcludeUnset
      ⟨some "Ana", none, none, none, none, none, none, none, none,
        ["name", "age"]⟩) = none :=
  ⟨⟨by decide, by decide, rfl, rfl⟩,
   ((C10_patch_forwards_exactly_present_fields "u" "d1" "tt" 5
      (fun _ => TransportResult.err "x")
      [("name", Json.str "Ana"), ("age", Json.null)]
      [("treatment_access", Json.str "high")]
      ⟨some "Ana", none, none, none, none, none, none, none, none, ["name", "age"]⟩
      ⟨none, none, some "high", none, ["treatment_access"]⟩
      (by decide) (by decide) rfl rfl).2.2.1).trans rfl,
   ((C10_patch_forwards_exactly_present_fields "u" "d1" "tt" 5
      (fun _ => TransportResult.err "x")
      [("name", Json.str "Ana"), ("age", Json.null)]
      [("treatment_access", Json.str "high")]
      ⟨some "Ana", none, none, none, none, none, none, none, none, ["name", "age"]⟩
      ⟨none, none, some "high", none, ["treatment_access"]⟩
      (by decide) (by decide) rfl rfl).2.2.2.1).trans rfl⟩

end OncoGateway
